import Mathlib

/-!
Verification of the `StandardConnectionService` connection-orchestration layer
(`src/libs/services/designer-client-services/src/lib/standard/connection.ts`)
of the LogicAppsUX repository, as a shallow embedding in Lean 4.

External HTTP calls, the base-class service methods and the host callbacks are
modelled as an environment (`Env`) supplying each call's outcome, and every
service method is embedded as a pure function returning its result together
with the ordered list of external actions it performed. Logging calls
(`LoggerService`) are elided: no claim mentions them.
-/

namespace LogicAppsUX

/-! ## escapeSpecialChars (connection.ts, lines 2738-2741)

The source first replaces every underscore globally with a double underscore,
then replaces every dash globally with an underscore followed by the digit 1.
-/

/-- One global single-character regex replacement (a `String.replace` with a
single-character global regex), character by character, on the underlying
character list. -/
def replaceAllChar (c : Char) (r : List Char) : List Char → List Char
  | [] => []
  | a :: as => (if a = c then r else [a]) ++ replaceAllChar c r as

/-- `escapeSpecialChars` from connection.ts: replace every `_` with `__`,
then every `-` with `_1`. -/
def escapeSpecialChars (value : String) : String :=
  let escapedUnderscore := replaceAllChar '_' ['_', '_'] value.data
  ⟨replaceAllChar '-' ['_', '1'] escapedUnderscore⟩

/-- The per-character encoding realised by the two sequential replacements. -/
def escChar (c : Char) : List Char :=
  if c = '_' then ['_', '_'] else if c = '-' then ['_', '1'] else [c]

/-- Decoder for the image of `escChar`: a left inverse of the encoding. -/
def unescChars : List Char → List Char
  | [] => []
  | [c] => [c]
  | c₁ :: c₂ :: rest =>
    if c₁ = '_' then
      (if c₂ = '1' then '-' else '_') :: unescChars rest
    else
      c₁ :: unescChars (c₂ :: rest)

/-! ## JavaScript-value plumbing -/

/-- The single-quote character, used by the `@appsetting` reference literals
the source builds with template strings. -/
def singleQuote : String := (Char.ofNat 39).toString

/-- The app-setting reference literal the source interpolates:
`@appsetting(` + a single quote + the setting name + a single quote + `)`. -/
def appsettingRef (appSettingName : String) : String :=
  "@appsetting(" ++ singleQuote ++ appSettingName ++ singleQuote ++ ")"

/-- The `authentication` object shape of a functions connection:
`{ type, name, value }` with string fields. -/
structure AuthInfo where
  type : String
  name : String
  value : String
deriving DecidableEq, Repr

/-- Values of untyped JavaScript records (`any`): strings, authentication
objects, `undefined`, and other values kept opaque. -/
inductive AnyVal where
  | str (s : String)
  | auth (a : AuthInfo)
  | jsUndefined
  | other (n : Nat)
deriving DecidableEq, Repr

/-- Property read `record[key]` on a JavaScript object: `undefined` when the
key is absent. -/
def jsGet (record : List (String × AnyVal)) (key : String) : AnyVal :=
  match record.find? (fun p => p.1 == key) with
  | some p => p.2
  | none => .jsUndefined

/-- Property assignment `record[key] = v` on a JavaScript object: overwrites
in place when the key exists, otherwise appends. -/
def setSetting (record : List (String × AnyVal)) (key : String) (v : AnyVal) :
    List (String × AnyVal) :=
  if record.any (fun p => p.1 == key) then
    record.map (fun p => if p.1 == key then (key, v) else p)
  else
    record ++ [(key, v)]

/-- `safeSetObjectPropertyValue(obj, path, v)` from the utils package, on
objects modelled as association lists keyed by full property path: sets the
value at the path, overwriting in place when present, appending otherwise. -/
def safeSetObjectPropertyValue (obj : List (List String × AnyVal))
    (path : List String) (v : AnyVal) : List (List String × AnyVal) :=
  if obj.any (fun p => p.1 == path) then
    obj.map (fun p => if p.1 == path then (path, v) else p)
  else
    obj ++ [(path, v)]

/-! ## Utils predicates (imported from `@microsoft/utils-logic-apps`, whose
source is not under src/) -/

/-- Modelled from the spec: `equals` of the utils package (not under src/),
the case-insensitive string comparison used throughout the service. -/
def equals (a b : String) : Bool :=
  a.data.map Char.toLower == b.data.map Char.toLower

/-- Modelled from the spec: `isArmResourceId` of the utils package (not under
src/) — whether an id is an Azure Resource Manager resource id, i.e. starts
with `/subscriptions/`. -/
def isArmResourceId (id : String) : Bool :=
  List.isPrefixOf "/subscriptions/".data id.data

/-- A user-assigned identity entry of a managed identity. -/
structure UserAssignedIdentity where
  principalId : Option String
  clientId : Option String
deriving DecidableEq, Repr

/-- An Azure managed identity, as consumed by the service: its `type` is one
of `SystemAssigned`, `UserAssigned`, `SystemAssigned, UserAssigned`, `None`. -/
structure ManagedIdentity where
  type : String
  principalId : Option String
  tenantId : Option String
  userAssignedIdentities : Option (List (String × UserAssignedIdentity))
deriving DecidableEq, Repr

/-- Modelled from the spec: `isIdentityAssociatedWithLogicApp` of the utils
package (not under src/) — the identity exists and carries one of the managed
identity types. -/
def isIdentityAssociatedWithLogicApp (managedIdentity : Option ManagedIdentity) : Bool :=
  match managedIdentity with
  | none => false
  | some identity =>
    equals identity.type "SystemAssigned" ||
    equals identity.type "UserAssigned" ||
    equals identity.type "SystemAssigned, UserAssigned"

/-- Modelled from the spec: `tryParseErrorMessage` of the base service (not
under src/) extracts a human-readable message from a thrown error; thrown
errors are modelled as their message strings, so extraction is the identity. -/
def tryParseErrorMessage (error : String) : String := error

/-- Modelled from the spec: the browser `atob` base64 decoding applied to the
OAuth popup error payload; its content is opaque to every claim, so the
decoded text is modelled as an opaque function of the payload. -/
def atobDecode (payload : String) : String := "decoded:" ++ payload

/-! ## Connection data model (connection.ts, lines 28-98) -/

/-- `serviceProvider: { id }` reference inside a service-provider model. -/
structure ServiceProviderRef where
  id : String
deriving DecidableEq, Repr

/-- `ServiceProviderConnectionModel` (connection.ts, lines 44-51), with
`parameterValues` modelled as an association list keyed by full property
path (`safeSetObjectPropertyValue` writes through nested paths). -/
structure ServiceProviderConnectionModel where
  parameterValues : List (List String × AnyVal)
  serviceProvider : ServiceProviderRef
  parameterSetName : Option String
  displayName : Option String
deriving DecidableEq, Repr

/-- `FunctionsConnectionModel` (connection.ts, lines 53-63). The `function`
and `triggerUrl` fields are copied through untyped. -/
structure FunctionsConnectionModel where
  function : AnyVal
  triggerUrl : AnyVal
  authentication : AuthInfo
  displayName : Option String
deriving DecidableEq, Repr

/-- `APIManagementConnectionModel` (connection.ts, lines 65-75). -/
structure APIManagementConnectionModel where
  apiId : AnyVal
  baseUrl : AnyVal
  subscriptionKey : String
  authentication : AnyVal
  displayName : Option String
deriving DecidableEq, Repr

/-- `ConnectionAndAppSetting<T>` (connection.ts, lines 77-82). -/
structure ConnectionAndAppSetting (α : Type) where
  connectionKey : String
  connectionData : α
  settings : List (String × AnyVal)
  pathLocation : List String
deriving DecidableEq, Repr

/-- `LocalConnectionModel` (connection.ts, line 92): the sum of the three
local connection payload shapes. -/
inductive LocalConnectionModel where
  | serviceProvider (m : ServiceProviderConnectionModel)
  | functions (m : FunctionsConnectionModel)
  | apim (m : APIManagementConnectionModel)
deriving DecidableEq, Repr

/-- `ConnectionsData` (connection.ts, lines 84-89): the local connections
file, keyed by the three storage locations. -/
structure ConnectionsData where
  serviceProviderConnections : Option (List (String × ServiceProviderConnectionModel))
  functionConnections : Option (List (String × FunctionsConnectionModel))
  apiManagementConnections : Option (List (String × APIManagementConnectionModel))
deriving DecidableEq, Repr

/-- `serviceProviderLocation` (connection.ts, line 96). -/
def serviceProviderLocation : String := "serviceProviderConnections"

/-- `functionsLocation` (connection.ts, line 97). -/
def functionsLocation : String := "functionConnections"

/-- `apimLocation` (connection.ts, line 98). -/
def apimLocation : String := "apiManagementConnections"

/-- Modelled from the spec: `azureFunctionConnectorId` exported by
base/operationmanifest (not under src/); an opaque connector id constant. -/
def azureFunctionConnectorId : String := "/connectionProviders/azureFunctionOperation"

/-- Modelled from the spec: `apiManagementConnectorId` exported by
base/operationmanifest (not under src/); an opaque connector id constant. -/
def apiManagementConnectorId : String := "/connectionProviders/apiManagementOperation"

/-- A `{ status }` entry of a connection. -/
structure StatusEntry where
  status : String
deriving DecidableEq, Repr

/-- The `api: { id }` reference of a connection. -/
structure ApiReference where
  id : String
deriving DecidableEq, Repr

/-- The properties of a `Connection` value, restricted to the fields the
embedded code reads or builds. -/
structure ConnectionProperties where
  api : ApiReference
  createdTime : String
  connectionParameters : List (String × AnyVal)
  displayName : Option String
  statuses : List StatusEntry
  overallStatus : String
  testLinks : List String
deriving DecidableEq, Repr

/-- A `Connection` resource. Locally converted connections carry no
`location`; API-hub connections may. -/
structure Connection where
  name : String
  id : String
  type : String
  location : Option String
  properties : ConnectionProperties
deriving DecidableEq, Repr

/-- `ConnectionAcl` (connection.ts, lines 28-42), nested as in the source. -/
structure AclIdentity where
  objectId : String
  tenantId : String
deriving DecidableEq, Repr

structure AclPrincipal where
  type : String
  identity : AclIdentity
deriving DecidableEq, Repr

structure AclProperties where
  principal : AclPrincipal
deriving DecidableEq, Repr

structure ConnectionAcl where
  id : String
  location : String
  name : String
  properties : AclProperties
  type : String
deriving DecidableEq, Repr

/-- A connector, restricted to the fields the embedded code reads. -/
structure ConnectorProperties where
  displayName : Option String
  testConnectionUrl : Option String
deriving DecidableEq, Repr

structure Connector where
  id : String
  properties : ConnectorProperties
deriving DecidableEq, Repr

/-! ## Creation-info and parameter metadata -/

/-- One entry of `connectionParametersSet.values`: a `{ value }` wrapper. -/
structure ParameterSetValueEntry where
  value : AnyVal
deriving DecidableEq, Repr

/-- `connectionParametersSet` of a `ConnectionCreationInfo`. -/
structure ConnectionParameterSetValues where
  name : String
  values : List (String × ParameterSetValueEntry)
deriving DecidableEq, Repr

/-- `ConnectionCreationInfo`, restricted to the fields the embedded code
reads. -/
structure ConnectionCreationInfo where
  displayName : Option String
  connectionParameters : Option (List (String × AnyVal))
  connectionParametersSet : Option ConnectionParameterSetValues
  appSettings : Option (List (String × AnyVal))
deriving DecidableEq, Repr

/-- `ConnectionParameterSource.AppConfiguration` against the other sources. -/
inductive ConnectionParameterSource where
  | AppConfiguration
  | NotSpecified
deriving DecidableEq, Repr

/-- `uiDefinition.constraints` of a connection parameter. -/
structure UIConstraints where
  propertyPath : Option (List String)
deriving DecidableEq, Repr

structure UIDefinition where
  constraints : Option UIConstraints
deriving DecidableEq, Repr

/-- A `ConnectionParameter`, restricted to the fields the embedded code
reads. -/
structure ConnectionParameter where
  parameterSource : Option ConnectionParameterSource
  uiDefinition : Option UIDefinition
deriving DecidableEq, Repr

/-- `ConnectionType` tags distinguished by `_getConnectionsConfiguration`:
`Function`, `ApiManagement`, and everything else (service provider). -/
inductive ConnectionType where
  | Function
  | ApiManagement
  | ServiceProvider
deriving DecidableEq, Repr

/-- `connectionMetadata` of the parameters metadata. -/
structure ConnectionMetadata where
  type : Option ConnectionType
  connectionCreationClient : Option String
deriving DecidableEq, Repr

/-- `connectionParameterSet` metadata: named set with its parameters. -/
structure ConnectionParameterSetMetadata where
  parameters : List (String × ConnectionParameter)
deriving DecidableEq, Repr

/-- `ConnectionParametersMetadata`, restricted to the fields the embedded
code reads. -/
structure ConnectionParametersMetadata where
  connectionParameters : Option (List (String × ConnectionParameter))
  connectionParameterSet : Option ConnectionParameterSetMetadata
  connectionMetadata : Option ConnectionMetadata
deriving DecidableEq, Repr

/-- The defaulted empty parameters metadata (the source declares the argument
optional and casts it to required before use). -/
def emptyParametersMetadata : ConnectionParametersMetadata :=
  { connectionParameters := none, connectionParameterSet := none, connectionMetadata := none }

/-- OAuth popup login response: may carry a consent `code` or an `error`
payload. -/
structure LoginResponse where
  code : Option String
  error : Option String
deriving DecidableEq, Repr

/-- `CreateConnectionResult`: a resolved OAuth creation outcome. -/
structure CreateConnectionResult where
  connection : Option Connection
  errorMessage : Option String
deriving DecidableEq, Repr

/-- Identity details chosen for API-hub authorization. -/
structure IdentityDetails where
  principalId : String
  tenantId : String
deriving DecidableEq, Repr

/-! ## Conversion helpers (connection.ts, lines 2566-2736) -/

/-- `convertServiceProviderConnectionDataToConnection` (lines 2566-2589). -/
def convertServiceProviderConnectionDataToConnection (connectionKey : String)
    (connectionData : ServiceProviderConnectionModel) : Connection :=
  { name := connectionKey
    id := connectionData.serviceProvider.id ++ "/connections/" ++ connectionKey
    type := "connections"
    location := none
    properties :=
      { api := { id := connectionData.serviceProvider.id }
        createdTime := ""
        connectionParameters := []
        displayName := connectionData.displayName
        statuses := [{ status := "Connected" }]
        overallStatus := "Connected"
        testLinks := [] } }

/-- `convertApimConnectionDataToConnection` (lines 2591-2608). -/
def convertApimConnectionDataToConnection (connectionKey : String)
    (connectionData : APIManagementConnectionModel) : Connection :=
  { name := connectionKey
    id := apiManagementConnectorId ++ "/connections/" ++ connectionKey
    type := "connections"
    location := none
    properties :=
      { api := { id := apiManagementConnectorId }
        createdTime := ""
        connectionParameters := []
        displayName := connectionData.displayName
        statuses := [{ status := "Connected" }]
        overallStatus := "Connected"
        testLinks := [] } }

/-- `convertFunctionsConnectionDataToConnection` (lines 2610-2627). -/
def convertFunctionsConnectionDataToConnection (connectionKey : String)
    (connectionData : FunctionsConnectionModel) : Connection :=
  { name := connectionKey
    id := azureFunctionConnectorId ++ "/connections/" ++ connectionKey
    type := "connections"
    location := none
    properties :=
      { api := { id := azureFunctionConnectorId }
        createdTime := ""
        connectionParameters := []
        displayName := connectionData.displayName
        statuses := [{ status := "Connected" }]
        overallStatus := "Connected"
        testLinks := [] } }

/-- The metadata parameters chosen by `convertToServiceProviderConnectionsData`
(lines 2675-2677): the parameter-set parameters when set values are given,
the flat connection parameters otherwise. -/
def spMetadataParameters (connectionInfo : ConnectionCreationInfo)
    (connectionParameterMetadata : ConnectionParametersMetadata) :
    List (String × ConnectionParameter) :=
  match connectionInfo.connectionParametersSet with
  | some _ => (connectionParameterMetadata.connectionParameterSet.map (fun s => s.parameters)).getD []
  | none => connectionParameterMetadata.connectionParameters.getD []

/-- The parameter values chosen by `convertToServiceProviderConnectionsData`
(lines 2678-2686): set values reduced to their `.value` fields when given,
the flat `connectionParameters` otherwise. -/
def spParameterValues (connectionInfo : ConnectionCreationInfo) :
    List (String × AnyVal) :=
  match connectionInfo.connectionParametersSet with
  | some setValues => setValues.values.map (fun p => (p.1, p.2.value))
  | none => connectionInfo.connectionParameters.getD []

/-- `connectionParameters?.[parameterKey]` lookup in the metadata map. -/
def lookupParameter (parameters : List (String × ConnectionParameter))
    (parameterKey : String) : Option ConnectionParameter :=
  (parameters.find? (fun p => p.1 == parameterKey)).map (fun p => p.2)

/-- `connectionParameter?.uiDefinition?.constraints?.propertyPath ?? []`. -/
def parameterPropertyPath (connectionParameter : Option ConnectionParameter) :
    List String :=
  ((((connectionParameter.bind (fun p => p.uiDefinition)).bind
      (fun u => u.constraints)).bind (fun c => c.propertyPath))).getD []

/-- The app-setting name built for an AppConfiguration-sourced parameter:
escaped connection key, underscore, escaped parameter key (line 2697). -/
def spAppSettingName (connectionKey parameterKey : String) : String :=
  escapeSpecialChars connectionKey ++ "_" ++ escapeSpecialChars parameterKey

/-- The body of the `for` loop of `convertToServiceProviderConnectionsData`
(lines 2668-2687), one parameter key at a time: substitutes
AppConfiguration-sourced values by an `@appsetting` reference (recording the
raw value in `settings`) and writes both the substituted and the raw value
through the parameter's property path. -/
def spFoldStep (connectionKey : String)
    (connectionParameters : List (String × ConnectionParameter))
    (acc : ConnectionAndAppSetting ServiceProviderConnectionModel × ServiceProviderConnectionModel)
    (pv : String × AnyVal) :
    ConnectionAndAppSetting ServiceProviderConnectionModel × ServiceProviderConnectionModel :=
  let connectionsData := acc.1
  let rawConnection := acc.2
  let parameterKey := pv.1
  let connectionParameter := lookupParameter connectionParameters parameterKey
  let rawValue := pv.2
  let substitute :=
    (connectionParameter.bind (fun p => p.parameterSource)) = some ConnectionParameterSource.AppConfiguration
  let appSettingName := spAppSettingName connectionKey parameterKey
  let parameterValue : AnyVal :=
    if substitute then AnyVal.str (appsettingRef appSettingName) else rawValue
  let settings :=
    if substitute then setSetting connectionsData.settings appSettingName rawValue
    else connectionsData.settings
  let path := parameterPropertyPath connectionParameter ++ [parameterKey]
  ({ connectionsData with
      settings := settings
      connectionData :=
        { connectionsData.connectionData with
            parameterValues :=
              safeSetObjectPropertyValue connectionsData.connectionData.parameterValues path parameterValue } },
   { rawConnection with
      parameterValues := safeSetObjectPropertyValue rawConnection.parameterValues path rawValue })

/-- `convertToServiceProviderConnectionsData` (lines 2629-2690): builds the
connections-data record (with `pathLocation` the service-provider location)
and the raw (unsubstituted) connection, folding the loop body over the
parameter values. -/
def convertToServiceProviderConnectionsData (connectionKey connectorId : String)
    (connectionInfo : ConnectionCreationInfo)
    (connectionParameterMetadata : ConnectionParametersMetadata) :
    ConnectionAndAppSetting ServiceProviderConnectionModel × ServiceProviderConnectionModel :=
  let connectionParameters := spMetadataParameters connectionInfo connectionParameterMetadata
  let parameterValues := spParameterValues connectionInfo
  let connectionsData : ConnectionAndAppSetting ServiceProviderConnectionModel :=
    { connectionKey := connectionKey
      connectionData :=
        { parameterValues := []
          parameterSetName := connectionInfo.connectionParametersSet.map (fun s => s.name)
          serviceProvider := { id := connectorId }
          displayName := connectionInfo.displayName }
      settings := connectionInfo.appSettings.getD []
      pathLocation := [serviceProviderLocation] }
  let rawConnection := connectionsData.connectionData
  parameterValues.foldl (spFoldStep connectionKey connectionParameters) (connectionsData, rawConnection)

/-- `convertToFunctionsConnectionsData` (lines 2692-2714). Returns `none`
when the `authentication` parameter is absent or not an authentication
object: there the source would fail reading `.value` of `undefined`. -/
def convertToFunctionsConnectionsData (connectionKey : String)
    (connectionInfo : ConnectionCreationInfo) :
    Option (ConnectionAndAppSetting FunctionsConnectionModel) :=
  let connectionParameters := connectionInfo.connectionParameters.getD []
  match jsGet connectionParameters "authentication" with
  | .auth authentication =>
    let functionAppKey := authentication.value
    let appSettingName := escapeSpecialChars connectionKey ++ "_functionAppKey"
    some
      { connectionKey := connectionKey
        connectionData :=
          { function := jsGet connectionParameters "function"
            triggerUrl := jsGet connectionParameters "triggerUrl"
            authentication := { authentication with value := appsettingRef appSettingName }
            displayName := connectionInfo.displayName }
        settings := [(appSettingName, AnyVal.str functionAppKey)]
        pathLocation := [functionsLocation] }
  | _ => none

/-- `convertToApimConnectionsData` (lines 2716-2736). -/
def convertToApimConnectionsData (connectionKey : String)
    (connectionInfo : ConnectionCreationInfo) :
    ConnectionAndAppSetting APIManagementConnectionModel :=
  let connectionParameters := connectionInfo.connectionParameters.getD []
  let subscriptionKey := jsGet connectionParameters "subscriptionKey"
  let appSettingName := escapeSpecialChars connectionKey ++ "_SubscriptionKey"
  { connectionKey := connectionKey
    connectionData :=
      { apiId := jsGet connectionParameters "apiId"
        baseUrl := jsGet connectionParameters "baseUrl"
        subscriptionKey := appsettingRef appSettingName
        authentication := jsGet connectionParameters "authentication"
        displayName := connectionInfo.displayName }
    settings := [(appSettingName, subscriptionKey)]
    pathLocation := [apimLocation] }

/-! ## The service environment

Every outward call (HTTP request, base-class method, host callback) is an
`Action`; its outcome is supplied by the `Env`. A method is embedded as a
pure function `Env → args → Except String α × List Action`, the list being
the ordered actions the call performed. -/

/-- The outward actions of the service. -/
inductive Action where
  | readLocalConnections
  | readApiHubConnections
  | getConnectionsForConnector (connectorId : String)
  | apiHubCreate (connectionName connectorId : String)
  | getAcls (connectionId : String)
  | putAccessPolicy (connectionId policyName objectId tenantId location : String)
  | testConn (connectionId : String)
  | testServiceProvider (url : String) (rawConnection : ServiceProviderConnectionModel)
  | writeLocal (pathLocation : List String) (connectionKey : String)
  | deleteConn (connectionId : String)
  | getConnector (connectorId : String)
  | fetchConsentUrl (connectionId : String)
  | openPopup (consentUrl : String)
  | confirmCode (connectionId code : String)
  | getConn (connectionId : String)
  | creationClient (name : String)
deriving DecidableEq, Repr

/-- `workflowAppDetails` of the service options. -/
structure WorkflowAppDetails where
  appName : String
  identity : Option ManagedIdentity
deriving DecidableEq, Repr

/-- The service options the embedded methods read: the API-hub tenant, the
subscription details used for the ARM request path, the workflow app details,
and whether the `writeConnection` callback was supplied. -/
structure ServiceOptions where
  tenantId : String
  subscriptionId : String
  resourceGroup : String
  workflowAppDetails : Option WorkflowAppDetails
  writeConnectionRegistered : Bool
deriving DecidableEq, Repr

/-- The environment: the options plus the outcome of each outward call. -/
structure Env where
  options : ServiceOptions
  readConnectionsResult : Except String ConnectionsData
  apiHubConnectionsResult : Except String (List Connection)
  connectionsForConnectorResult : Except String (List Connection)
  apiHubCreateResult : Except String Connection
  aclFetchResult : Except String (List ConnectionAcl)
  putAclResult : Except String Unit
  testConnectionResult : Except String Unit
  testSPResult : Except String Unit
  writeConnectionResult : Except String Unit
  getConnectorResult : Except String Connector
  consentUrlResult : Except String String
  loginResult : Except String LoginResponse
  confirmResult : Except String Unit
  getConnectionResult : Except String Connection
  registeredCreationClients : List String
  creationClientResult : Except String ConnectionCreationInfo
deriving Repr

/-- Modelled from the spec: `getAzureConnectionRequestPath` of the base
service (not under src/) builds the ARM request path of a connection name
from the API-hub subscription details. -/
def getAzureConnectionRequestPath (options : ServiceOptions) (connectionName : String) : String :=
  "/subscriptions/" ++ options.subscriptionId ++ "/resourceGroups/" ++
    options.resourceGroup ++ "/providers/Microsoft.Web/connections/" ++ connectionName

/-- Modelled from the spec: `createConnectionInApiHub` of the base service
(not under src/): the API-hub connection PUT, outcome from the environment. -/
def createConnectionInApiHub (env : Env) (connectionName connectorId : String) :
    Except String Connection × List Action :=
  (env.apiHubCreateResult, [Action.apiHubCreate connectionName connectorId])

/-- Modelled from the spec: `testConnection` of the base service (not under
src/): tests a connection, outcome from the environment. -/
def testConnection (env : Env) (connection : Connection) :
    Except String Unit × List Action :=
  (env.testConnectionResult, [Action.testConn connection.id])

/-- Modelled from the spec: `deleteConnection` of the base service (not under
src/): best-effort DELETE of the connection, never awaited by the callers
embedded here. -/
def deleteConnection (connectionId : String) : List Action :=
  [Action.deleteConn connectionId]

/-! ## getConnections (connection.ts, lines 2162-2191) -/

/-- `getConnections`: with a connector id, delegates to
`getConnectionsForConnector`; otherwise reads the local connections file and
the API-hub connections with one `Promise.all` and returns the converted
service-provider, function and API-management connections followed by the
API-hub connections. -/
def getConnections (env : Env) (connectorId : Option String) :
    Except String (List Connection) × List Action :=
  match connectorId with
  | some cid => (env.connectionsForConnectorResult, [Action.getConnectionsForConnector cid])
  | none =>
    let acts := [Action.readLocalConnections, Action.readApiHubConnections]
    match env.readConnectionsResult, env.apiHubConnectionsResult with
    | .ok localConnections, .ok apiHubConnections =>
      let serviceProviderConnections := localConnections.serviceProviderConnections.getD []
      let functionConnections := localConnections.functionConnections.getD []
      let apimConnections := localConnections.apiManagementConnections.getD []
      (.ok
        (serviceProviderConnections.map
            (fun p => convertServiceProviderConnectionDataToConnection p.1 p.2) ++
          functionConnections.map
            (fun p => convertFunctionsConnectionDataToConnection p.1 p.2) ++
          apimConnections.map
            (fun p => convertApimConnectionDataToConnection p.1 p.2) ++
          apiHubConnections),
        acts)
    | .error e, _ => (.error e, acts)
    | _, .error e => (.error e, acts)

/-! ## ACL reconciliation (connection.ts, lines 2331-2421) -/

/-- `_getIdentityDetailsForApiHubAuth` (lines 2424-2443): the system-assigned
identity when present and no identity id was requested, else the matching (or
first) user-assigned identity, authenticated in the API-hub tenant. -/
def _getIdentityDetailsForApiHubAuth (managedIdentity : ManagedIdentity)
    (tenantId : String) (identityIdForConnection : Option String) : IdentityDetails :=
  if identityIdForConnection.isNone &&
      (equals managedIdentity.type "SystemAssigned" ||
        equals managedIdentity.type "SystemAssigned, UserAssigned") then
    { principalId := managedIdentity.principalId.getD ""
      tenantId := managedIdentity.tenantId.getD "" }
  else
    let identities := managedIdentity.userAssignedIdentities.getD []
    let identityKeys := identities.map (fun p => p.1)
    let selectedIdentity :=
      (match identityIdForConnection with
        | some requested => identityKeys.find? (fun identityKey => equals identityKey requested)
        | none => none).getD (identityKeys.headD "")
    { principalId :=
        ((identities.find? (fun p => p.1 == selectedIdentity)).bind
          (fun p => p.2.principalId)).getD ""
      tenantId := tenantId }

/-- `_getConnectionAcls` (lines 2374-2387): GET the access policies of the
connection. -/
def _getConnectionAcls (env : Env) (connectionId : String) :
    Except String (List ConnectionAcl) × List Action :=
  (env.aclFetchResult, [Action.getAcls connectionId])

/-- `_createAccessPolicyInConnection` (lines 2389-2421): PUT an access policy
named `appName-objectId` binding the identity (objectId, tenantId) to the
connection resource at its location. -/
def _createAccessPolicyInConnection (env : Env) (connectionId appName : String)
    (identityDetails : IdentityDetails) (location : String) :
    Except String Unit × List Action :=
  let policyName := appName ++ "-" ++ identityDetails.principalId
  (env.putAclResult,
    [Action.putAccessPolicy connectionId policyName identityDetails.principalId
      identityDetails.tenantId location])

/-- The fallback managed identity for the `identity as ManagedIdentity`
cast (never reached when the identity-association guard has passed). -/
def castManagedIdentity (identity : Option ManagedIdentity) : ManagedIdentity :=
  identity.getD { type := "None", principalId := none, tenantId := none, userAssignedIdentities := none }

/-- `_createConnectionAclIfNeeded` (lines 2331-2371): returns immediately
unless the connection id is an ARM resource id and workflow app details are
present; throws when no managed identity is associated; otherwise fetches the
existing ACLs and creates an access policy when none matches the chosen
identity, swallowing any creation failure. -/
def _createConnectionAclIfNeeded (env : Env) (connection : Connection)
    (identityId : Option String) : Except String Unit × List Action :=
  let tenantId := env.options.tenantId
  match env.options.workflowAppDetails with
  | none => (.ok (), [])
  | some workflowAppDetails =>
    if !isArmResourceId connection.id then (.ok (), [])
    else if !isIdentityAssociatedWithLogicApp workflowAppDetails.identity then
      (.error "A managed identity is not configured on the logic app.", [])
    else
      match _getConnectionAcls env connection.id with
      | (.error e, aclActs) => (.error e, aclActs)
      | (.ok connectionAcls, aclActs) =>
        let identityDetailsForApiHubAuth :=
          _getIdentityDetailsForApiHubAuth (castManagedIdentity workflowAppDetails.identity)
            tenantId identityId
        if !(connectionAcls.any (fun acl =>
            acl.properties.principal.identity.objectId == identityDetailsForApiHubAuth.principalId &&
            acl.properties.principal.identity.tenantId == tenantId)) then
          let created :=
            _createAccessPolicyInConnection env connection.id workflowAppDetails.appName
              identityDetailsForApiHubAuth (connection.location.getD "")
          (.ok (), aclActs ++ created.2)
        else
          (.ok (), aclActs)

/-! ## API-hub creation (connection.ts, lines 2283-2324) -/

/-- `_createConnectionInApiHub`: blocks creation without an associated
identity, creates the connection in API hub, then creates the ACL — deleting
the connection and throwing when ACL creation failed — and finally tests the
connection when requested. -/
def _createConnectionInApiHub (env : Env) (connectionName connectorId : String)
    (shouldTestConnection : Bool) : Except String Connection × List Action :=
  let workflowAppDetails := env.options.workflowAppDetails
  if (match workflowAppDetails with
      | some details => !isIdentityAssociatedWithLogicApp details.identity
      | none => false) then
    (.error "To create and use an API connection, you must have a managed identity configured on this logic app.", [])
  else
    let connectionId := getAzureConnectionRequestPath env.options connectionName
    match createConnectionInApiHub env connectionName connectorId with
    | (.error e, createActs) => (.error e, createActs)
    | (.ok connection, createActs) =>
      match _createConnectionAclIfNeeded env connection none with
      | (.error _, aclActs) =>
        (.error "Acl creation failed for connection. Deleting the connection.",
          createActs ++ aclActs ++ deleteConnection connectionId)
      | (.ok _, aclActs) =>
        if shouldTestConnection then
          match testConnection env connection with
          | (.error e, testActs) => (.error e, createActs ++ aclActs ++ testActs)
          | (.ok _, testActs) => (.ok connection, createActs ++ aclActs ++ testActs)
        else
          (.ok connection, createActs ++ aclActs)

/-! ## Local creation (connection.ts, lines 2244-2281, 2492-2541) -/

/-- `_getConnectionsConfiguration` (lines 2492-2541): selects the payload by
the connection type tag — functions, API management, or (default) service
provider — and, for service providers whose connector declares a
`testConnectionUrl`, tests the raw connection before returning. -/
def _getConnectionsConfiguration (env : Env) (connectionName : String)
    (connectionInfo : ConnectionCreationInfo) (connector : Connector)
    (parametersMetadata : ConnectionParametersMetadata) :
    Except String (ConnectionAndAppSetting LocalConnectionModel × Connection) × List Action :=
  let connectionType := parametersMetadata.connectionMetadata.bind (fun m => m.type)
  match connectionType with
  | some ConnectionType.Function =>
    match convertToFunctionsConnectionsData connectionName connectionInfo with
    | none => (.error "TypeError: cannot read properties of undefined", [])
    | some connectionsData =>
      let connection :=
        convertFunctionsConnectionDataToConnection connectionsData.connectionKey
          connectionsData.connectionData
      (.ok
        ({ connectionKey := connectionsData.connectionKey
           connectionData := LocalConnectionModel.functions connectionsData.connectionData
           settings := connectionsData.settings
           pathLocation := connectionsData.pathLocation },
         connection), [])
  | some ConnectionType.ApiManagement =>
    let connectionsData := convertToApimConnectionsData connectionName connectionInfo
    let connection :=
      convertApimConnectionDataToConnection connectionsData.connectionKey
        connectionsData.connectionData
    (.ok
      ({ connectionKey := connectionsData.connectionKey
         connectionData := LocalConnectionModel.apim connectionsData.connectionData
         settings := connectionsData.settings
         pathLocation := connectionsData.pathLocation },
       connection), [])
  | _ =>
    let converted :=
      convertToServiceProviderConnectionsData connectionName connector.id connectionInfo
        parametersMetadata
    let connectionAndSettings := converted.1
    let rawConnection := converted.2
    let connection :=
      convertServiceProviderConnectionDataToConnection connectionAndSettings.connectionKey
        connectionAndSettings.connectionData
    let wrapped : ConnectionAndAppSetting LocalConnectionModel :=
      { connectionKey := connectionAndSettings.connectionKey
        connectionData := LocalConnectionModel.serviceProvider connectionAndSettings.connectionData
        settings := connectionAndSettings.settings
        pathLocation := connectionAndSettings.pathLocation }
    match connector.properties.testConnectionUrl with
    | some url =>
      match env.testSPResult with
      | .error e => (.error e, [Action.testServiceProvider url rawConnection])
      | .ok _ => (.ok (wrapped, connection), [Action.testServiceProvider url rawConnection])
    | none => (.ok (wrapped, connection), [])

/-- The tail of `createConnectionInLocal` (lines 2264-2280) after the
optional creation-client transformation: requires the registered write
callback, builds the configuration, writes it and returns the connection. -/
def localAfterClient (env : Env) (connectionName : String) (connector : Connector)
    (parametersMetadata : ConnectionParametersMetadata)
    (p : ConnectionCreationInfo × List Action) :
    Except String Connection × List Action :=
  let info := p.1
  let clientActs := p.2
  if !env.options.writeConnectionRegistered then
    (.error "Callback for write connection is not passed in service.", clientActs)
  else
    match _getConnectionsConfiguration env connectionName info connector parametersMetadata with
    | (.error e, cfgActs) => (.error e, clientActs ++ cfgActs)
    | (.ok (connectionsData, connection), cfgActs) =>
      match env.writeConnectionResult with
      | .error e =>
        (.error e,
          clientActs ++ cfgActs ++
            [Action.writeLocal connectionsData.pathLocation connectionsData.connectionKey])
      | .ok _ =>
        (.ok connection,
          clientActs ++ cfgActs ++
            [Action.writeLocal connectionsData.pathLocation connectionsData.connectionKey])

/-- `createConnectionInLocal` (lines 2244-2281): optionally transforms the
creation info through a registered connection-creation client, requires the
`writeConnection` callback, builds the configuration, writes it, and returns
the connection. -/
def createConnectionInLocal (env : Env) (connectionName : String)
    (connector : Connector) (connectionInfo : ConnectionCreationInfo)
    (parametersMetadata : ConnectionParametersMetadata) :
    Except String Connection × List Action :=
  let connectionCreationClientName :=
    parametersMetadata.connectionMetadata.bind (fun m => m.connectionCreationClient)
  let transformed :
      Except String (ConnectionCreationInfo × List Action) :=
    match connectionCreationClientName with
    | none => .ok (connectionInfo, [])
    | some clientName =>
      if env.registeredCreationClients.contains clientName then
        match env.creationClientResult with
        | .ok newInfo => .ok (newInfo, [Action.creationClient clientName])
        | .error e => .error e
      else
        .error ("The connection creation client for " ++ clientName ++ " is not registered")
  match transformed with
  | .error e => (.error e, [])
  | .ok p => localAfterClient env connectionName connector parametersMetadata p

/-! ## createConnection (connection.ts, lines 2206-2241) -/

/-- Splitting a character list at every occurrence of a separator, the
JavaScript `split` semantics for a one-character separator. -/
def splitCharList (sep : Char) : List Char → List (List Char)
  | [] => [[]]
  | c :: cs =>
    let rest := splitCharList sep cs
    if c = sep then [] :: rest
    else
      match rest with
      | [] => [[c]]
      | r :: rs => (c :: r) :: rs

/-- `connectionId.split(slash).at(-1)` of the source. -/
def lastSegment (connectionId : String) : String :=
  ⟨(splitCharList (Char.ofNat 47) connectionId.data).getLastD []⟩

/-- `createConnection`: chooses the API-hub path for ARM connector ids and
the local path otherwise; on failure of the chosen path it best-effort
deletes the connection and rejects with a message prefixed
`Failed to create connection: `. The source declares `parametersMetadata`
optional and casts it to required before the local path uses it; the
embedding takes it required. -/
def createConnection (env : Env) (connectionId : String) (connector : Connector)
    (connectionInfo : ConnectionCreationInfo)
    (parametersMetadata : ConnectionParametersMetadata)
    (shouldTestConnection : Bool) : Except String Connection × List Action :=
  let connectionName := lastSegment connectionId
  let attempt :=
    if isArmResourceId connector.id then
      _createConnectionInApiHub env connectionName connector.id shouldTestConnection
    else
      createConnectionInLocal env connectionName connector connectionInfo parametersMetadata
  match attempt with
  | (.ok connection, acts) => (.ok connection, acts)
  | (.error e, acts) =>
    (.error ("Failed to create connection: " ++ tryParseErrorMessage e),
      acts ++ deleteConnection connectionId)

/-! ## createAndAuthorizeOAuthConnection (connection.ts, lines 2445-2490) -/

/-- The `catch` branch of `createAndAuthorizeOAuthConnection`: best-effort
delete of the connection and a resolved result carrying only the parsed
error message. -/
def oauthCatch (connectionId : String) (actsSoFar : List Action) (e : String) :
    Except String CreateConnectionResult × List Action :=
  (.ok { connection := none, errorMessage := some (tryParseErrorMessage e) },
    actsSoFar ++ deleteConnection connectionId)

/-- `createAndAuthorizeOAuthConnection`: fetches the connector, creates the
connection without testing it, fetches the consent URL, opens the login
popup, confirms the consent code when one is returned, sets up the ACL,
re-fetches and tests the connection; every failure after creation is caught,
deletes the connection and resolves with only an error message. A failure of
`getConnector` or of `createConnection` itself happens before the `try` and
rejects. -/
def createAndAuthorizeOAuthConnection (env : Env) (connectionId connectorId : String)
    (connectionInfo : ConnectionCreationInfo)
    (parametersMetadata : ConnectionParametersMetadata) :
    Except String CreateConnectionResult × List Action :=
  match env.getConnectorResult with
  | .error e => (.error e, [Action.getConnector connectorId])
  | .ok connector =>
    let created := createConnection env connectionId connector connectionInfo parametersMetadata false
    let acts0 := [Action.getConnector connectorId] ++ created.2
    match created.1 with
    | .error e => (.error e, acts0)
    | .ok connection =>
      let acts1 := acts0 ++ [Action.fetchConsentUrl connectionId]
      match env.consentUrlResult with
      | .error e => oauthCatch connectionId acts1 e
      | .ok consentUrl =>
        let acts2 := acts1 ++ [Action.openPopup consentUrl]
        match env.loginResult with
        | .error e => oauthCatch connectionId acts2 e
        | .ok loginResponse =>
          match loginResponse.error with
          | some errorPayload => oauthCatch connectionId acts2 (atobDecode errorPayload)
          | none =>
            let confirmed : Except String (List Action) :=
              match loginResponse.code with
              | some code =>
                (match env.confirmResult with
                  | .ok _ => .ok [Action.confirmCode connectionId code]
                  | .error e => .error e)
              | none => .ok []
            match confirmed with
            | .error e =>
              (match loginResponse.code with
                | some code => oauthCatch connectionId (acts2 ++ [Action.confirmCode connectionId code]) e
                | none => oauthCatch connectionId acts2 e)
            | .ok confirmActs =>
              let acts3 := acts2 ++ confirmActs
              match _createConnectionAclIfNeeded env connection none with
              | (.error e, aclActs) => oauthCatch connectionId (acts3 ++ aclActs) e
              | (.ok _, aclActs) =>
                let acts4 := acts3 ++ aclActs ++ [Action.getConn connection.id]
                match env.getConnectionResult with
                | .error e => oauthCatch connectionId acts4 e
                | .ok fetchedConnection =>
                  let acts5 := acts4 ++ [Action.testConn fetchedConnection.id]
                  match env.testConnectionResult with
                  | .error e => oauthCatch connectionId acts5 e
                  | .ok _ =>
                    (.ok { connection := some fetchedConnection, errorMessage := none }, acts5)

/-! ## Counting helper and concrete sample values -/

/-- The number of `deleteConn` actions in a trace. -/
def countDeletes (acts : List Action) : Nat :=
  (acts.filter (fun a => match a with | Action.deleteConn _ => true | _ => false)).length

/-- A concrete connection as the API hub would return it. -/
def sampleConnection : Connection :=
  { name := "conn1"
    id := "/subscriptions/s/resourceGroups/r/providers/Microsoft.Web/connections/conn1"
    type := "connections"
    location := some "westus"
    properties :=
      { api := { id := "/subscriptions/s/providers/Microsoft.Web/apis/sql" }
        createdTime := ""
        connectionParameters := []
        displayName := none
        statuses := []
        overallStatus := ""
        testLinks := [] } }

/-- A concrete system-assigned managed identity. -/
def sampleIdentity : ManagedIdentity :=
  { type := "SystemAssigned"
    principalId := some "object1"
    tenantId := some "tenant1"
    userAssignedIdentities := none }

/-- Concrete service options with a workflow app and write callback. -/
def sampleOptions : ServiceOptions :=
  { tenantId := "tenant1"
    subscriptionId := "s"
    resourceGroup := "r"
    workflowAppDetails := some { appName := "app", identity := some sampleIdentity }
    writeConnectionRegistered := true }

/-- A concrete ARM connector. -/
def sampleArmConnector : Connector :=
  { id := "/subscriptions/s/providers/Microsoft.Web/apis/sql"
    properties := { displayName := none, testConnectionUrl := none } }

/-- A concrete non-ARM (local) connector. -/
def sampleLocalConnector : Connector :=
  { id := "/serviceProviders/sql"
    properties := { displayName := none, testConnectionUrl := none } }

/-- A concrete non-ARM connector declaring a test connection URL. -/
def sampleSPTestConnector : Connector :=
  { id := "/serviceProviders/sql"
    properties := { displayName := none, testConnectionUrl := some "/test" } }

/-- Concrete creation info. -/
def sampleInfo : ConnectionCreationInfo :=
  { displayName := some "display"
    connectionParameters := some [("p1", AnyVal.str "v1")]
    connectionParametersSet := none
    appSettings := none }

/-- Concrete parameters metadata with no metadata at all. -/
def samplePM : ConnectionParametersMetadata :=
  { connectionParameters := none, connectionParameterSet := none, connectionMetadata := none }

/-- A concrete environment in which every outward call succeeds. -/
def sampleEnv : Env :=
  { options := sampleOptions
    readConnectionsResult := .ok { serviceProviderConnections := none, functionConnections := none, apiManagementConnections := none }
    apiHubConnectionsResult := .ok []
    connectionsForConnectorResult := .ok []
    apiHubCreateResult := .ok sampleConnection
    aclFetchResult := .ok []
    putAclResult := .ok ()
    testConnectionResult := .ok ()
    testSPResult := .ok ()
    writeConnectionResult := .ok ()
    getConnectorResult := .ok sampleArmConnector
    consentUrlResult := .ok "https://consent.example"
    loginResult := .ok { code := some "code1", error := none }
    confirmResult := .ok ()
    getConnectionResult := .ok sampleConnection
    registeredCreationClients := []
    creationClientResult := .ok sampleInfo }

/-! # Theorems -/

/-! ## escapeSpecialChars lemmas and C10 -/

theorem replaceAllChar_append (c : Char) (r : List Char) (xs ys : List Char) :
    replaceAllChar c r (xs ++ ys) = replaceAllChar c r xs ++ replaceAllChar c r ys := by
  induction xs with
  | nil => simp [replaceAllChar]
  | cons a as ih => simp [replaceAllChar, ih]

/-- The two sequential global replacements act as the character-wise morphism
`escChar`: the first replacement introduces no `-` and removes no `-`. -/
theorem escapeSpecialChars_eq_flatMap (value : String) :
    (escapeSpecialChars value).data = value.data.flatMap escChar := by
  show replaceAllChar '-' ['_', '1'] (replaceAllChar '_' ['_', '_'] value.data)
      = value.data.flatMap escChar
  induction value.data with
  | nil => simp [replaceAllChar]
  | cons a as ih =>
    by_cases h_ : a = '_'
    · simp [replaceAllChar, replaceAllChar_append, h_, escChar, ih]
    · by_cases hd : a = '-'
      · simp [replaceAllChar, replaceAllChar_append, h_, hd, escChar, ih]
      · simp [replaceAllChar, replaceAllChar_append, h_, hd, escChar, ih]

theorem unescChars_escChar (a : Char) (l : List Char) :
    unescChars (escChar a ++ l) = a :: unescChars l := by
  by_cases h_ : a = '_'
  · simp [escChar, h_, unescChars]
  · by_cases hd : a = '-'
    · simp [escChar, h_, hd, unescChars]
    · cases l with
      | nil => simp [escChar, h_, hd, unescChars]
      | cons b bs => simp [escChar, h_, hd, unescChars]

theorem unescChars_flatMap_escChar (xs : List Char) :
    unescChars (xs.flatMap escChar) = xs := by
  induction xs with
  | nil => simp [unescChars]
  | cons a as ih => simp [List.flatMap_cons, unescChars_escChar, ih]

theorem escChar_injective_on_lists (xs ys : List Char)
    (h : xs.flatMap escChar = ys.flatMap escChar) : xs = ys := by
  have hx := unescChars_flatMap_escChar xs
  have hy := unescChars_flatMap_escChar ys
  rw [h] at hx
  exact hx.symm.trans hy

theorem escapeSpecialChars_injective (x y : String)
    (h : escapeSpecialChars x = escapeSpecialChars y) : x = y := by
  have hdata : (escapeSpecialChars x).data = (escapeSpecialChars y).data := by rw [h]
  rw [escapeSpecialChars_eq_flatMap, escapeSpecialChars_eq_flatMap] at hdata
  have := escChar_injective_on_lists x.data y.data hdata
  cases x; cases y; exact congrArg String.mk this

theorem escChar_ne_dash (a : Char) : '-' ∉ escChar a := by
  by_cases h_ : a = '_'
  · simp [escChar, h_]
  · by_cases hd : a = '-'
    · simp [escChar, h_, hd]
    · simp [escChar, h_, hd]
      intro h
      exact hd h.symm

/-- C10. `escapeSpecialChars` (replace every `_` by `__`, then every `-` by
`_1`) is injective — two distinct connection-key or parameter names never
collide to the same app-setting name — and its output never contains `-`. -/
theorem escapeSpecialChars_injective_and_dashfree (x y : String)
    (h : escapeSpecialChars x = escapeSpecialChars y) :
    x = y ∧ '-' ∉ (escapeSpecialChars x).data := by
  refine ⟨escapeSpecialChars_injective x y h, ?_⟩
  rw [escapeSpecialChars_eq_flatMap]
  intro hmem
  rcases List.mem_flatMap.mp hmem with ⟨a, _, ha⟩
  exact escChar_ne_dash a ha

/-- Witness for C10 at a concrete input. -/
theorem escapeSpecialChars_injective_witness :
    "a_b-c" = "a_b-c" ∧ '-' ∉ (escapeSpecialChars "a_b-c").data :=
  escapeSpecialChars_injective_and_dashfree "a_b-c" "a_b-c" rfl

/-! ## Fold bookkeeping lemmas for the service-provider conversion -/

theorem spFoldStep_pathLocation (k : String) (md : List (String × ConnectionParameter))
    (acc : ConnectionAndAppSetting ServiceProviderConnectionModel × ServiceProviderConnectionModel)
    (pv : String × AnyVal) :
    (spFoldStep k md acc pv).1.pathLocation = acc.1.pathLocation := rfl

theorem spFold_pathLocation (k : String) (md : List (String × ConnectionParameter))
    (l : List (String × AnyVal))
    (acc : ConnectionAndAppSetting ServiceProviderConnectionModel × ServiceProviderConnectionModel) :
    (l.foldl (spFoldStep k md) acc).1.pathLocation = acc.1.pathLocation := by
  induction l generalizing acc with
  | nil => rfl
  | cons pv rest ih => rw [List.foldl_cons, ih, spFoldStep_pathLocation]

theorem convertToServiceProviderConnectionsData_pathLocation
    (connectionKey connectorId : String) (connectionInfo : ConnectionCreationInfo)
    (pm : ConnectionParametersMetadata) :
    (convertToServiceProviderConnectionsData connectionKey connectorId connectionInfo pm).1.pathLocation
      = [serviceProviderLocation] := by
  unfold convertToServiceProviderConnectionsData
  rw [spFold_pathLocation]

theorem convertToFunctionsConnectionsData_pathLocation
    (connectionKey : String) (connectionInfo : ConnectionCreationInfo)
    (r : ConnectionAndAppSetting FunctionsConnectionModel)
    (h : convertToFunctionsConnectionsData connectionKey connectionInfo = some r) :
    r.pathLocation = [functionsLocation] := by
  simp only [convertToFunctionsConnectionsData] at h
  cases hj : jsGet (connectionInfo.connectionParameters.getD []) "authentication" with
  | auth a => rw [hj] at h; simp at h; rw [← h]
  | str s => rw [hj] at h; simp at h
  | jsUndefined => rw [hj] at h; simp at h
  | other n => rw [hj] at h; simp at h

/-- C7. Each local connection representation is stored under its own
location: service-provider data under `['serviceProviderConnections']`,
function data under `['functionConnections']`, API-management data under
`['apiManagementConnections']`; the three locations are pairwise distinct.
(Each payload has its own shape by type: the three conversions produce
`ServiceProviderConnectionModel`, `FunctionsConnectionModel` and
`APIManagementConnectionModel` values respectively.) -/
theorem localPayloadLocations (k₁ cid : String) (i₁ : ConnectionCreationInfo)
    (pm : ConnectionParametersMetadata) (k₂ : String) (i₂ : ConnectionCreationInfo)
    (r : ConnectionAndAppSetting FunctionsConnectionModel)
    (h : convertToFunctionsConnectionsData k₂ i₂ = some r)
    (k₃ : String) (i₃ : ConnectionCreationInfo) :
    (convertToServiceProviderConnectionsData k₁ cid i₁ pm).1.pathLocation = [serviceProviderLocation] ∧
    r.pathLocation = [functionsLocation] ∧
    (convertToApimConnectionsData k₃ i₃).pathLocation = [apimLocation] ∧
    serviceProviderLocation ≠ functionsLocation ∧
    serviceProviderLocation ≠ apimLocation ∧
    functionsLocation ≠ apimLocation := by
  refine ⟨convertToServiceProviderConnectionsData_pathLocation k₁ cid i₁ pm,
    convertToFunctionsConnectionsData_pathLocation k₂ i₂ r h, rfl, ?_, ?_, ?_⟩ <;> decide

/-- Witness for C7 at concrete inputs. -/
theorem localPayloadLocations_witness :
    (convertToServiceProviderConnectionsData "k1" "/serviceProviders/sql" sampleInfo samplePM).1.pathLocation
        = [serviceProviderLocation] ∧
    ({ connectionKey := "k2"
       connectionData :=
         { function := AnyVal.jsUndefined
           triggerUrl := AnyVal.jsUndefined
           authentication :=
             { type := "Raw", name := "key"
               value := appsettingRef (escapeSpecialChars "k2" ++ "_functionAppKey") }
           displayName := none }
       settings := [(escapeSpecialChars "k2" ++ "_functionAppKey", AnyVal.str "secret")]
       pathLocation := [functionsLocation] } : ConnectionAndAppSetting FunctionsConnectionModel).pathLocation
        = [functionsLocation] ∧
    (convertToApimConnectionsData "k3" sampleInfo).pathLocation = [apimLocation] ∧
    serviceProviderLocation ≠ functionsLocation ∧
    serviceProviderLocation ≠ apimLocation ∧
    functionsLocation ≠ apimLocation :=
  localPayloadLocations "k1" "/serviceProviders/sql" sampleInfo samplePM "k2"
    { displayName := none
      connectionParameters := some [("authentication", AnyVal.auth { type := "Raw", name := "key", value := "secret" })]
      connectionParametersSet := none
      appSettings := none }
    _ rfl "k3" sampleInfo

/-! ## C4: getConnections with no connector id -/

/-- C4. `getConnections()` with no connector id performs exactly the two
reads — the local `readConnections` callback and the API-hub read, combined
in one `Promise.all` — and returns the converted service-provider
connections, then the converted function connections, then the converted
API-management connections, then the API-hub connections, in that order. -/
theorem getConnections_two_reads_and_order (env : Env) (localConnections : ConnectionsData)
    (apiHubConnections : List Connection)
    (hl : env.readConnectionsResult = .ok localConnections)
    (hh : env.apiHubConnectionsResult = .ok apiHubConnections) :
    getConnections env none =
      (.ok
        ((localConnections.serviceProviderConnections.getD []).map
            (fun p => convertServiceProviderConnectionDataToConnection p.1 p.2) ++
          (localConnections.functionConnections.getD []).map
            (fun p => convertFunctionsConnectionDataToConnection p.1 p.2) ++
          (localConnections.apiManagementConnections.getD []).map
            (fun p => convertApimConnectionDataToConnection p.1 p.2) ++
          apiHubConnections),
        [Action.readLocalConnections, Action.readApiHubConnections]) := by
  unfold getConnections
  rw [hl, hh]

/-- Witness for C4 at a concrete environment holding one service-provider
connection and one API-hub connection. -/
theorem getConnections_two_reads_and_order_witness :
    getConnections
        { sampleEnv with
            readConnectionsResult := .ok
              { serviceProviderConnections := some
                  [("spKey",
                    { parameterValues := []
                      serviceProvider := { id := "/serviceProviders/sql" }
                      parameterSetName := none
                      displayName := some "sp" })]
                functionConnections := none
                apiManagementConnections := none }
            apiHubConnectionsResult := .ok [sampleConnection] } none =
      (.ok
        [convertServiceProviderConnectionDataToConnection "spKey"
            { parameterValues := []
              serviceProvider := { id := "/serviceProviders/sql" }
              parameterSetName := none
              displayName := some "sp" },
          sampleConnection],
        [Action.readLocalConnections, Action.readApiHubConnections]) := by
  rw [getConnections_two_reads_and_order _ _ [sampleConnection] rfl rfl]
  rfl

/-! ## C1: best-effort cleanup and rejection message of createConnection -/

/-- C1. Whenever the chosen creation path (API hub for ARM connector ids,
local otherwise) throws, `createConnection` invokes `deleteConnection` on the
given connection id and rejects with a message beginning
`Failed to create connection: `; no `Connection` value is returned. -/
theorem createConnection_cleanup_on_failure (env : Env) (connectionId : String)
    (connector : Connector) (info : ConnectionCreationInfo)
    (pm : ConnectionParametersMetadata) (stc : Bool) (e : String)
    (h : (if isArmResourceId connector.id then
            _createConnectionInApiHub env (lastSegment connectionId) connector.id stc
          else
            createConnectionInLocal env (lastSegment connectionId) connector info pm).1 = .error e) :
    (createConnection env connectionId connector info pm stc).1 =
        Except.error ("Failed to create connection: " ++ tryParseErrorMessage e) ∧
    (∀ c, (createConnection env connectionId connector info pm stc).1 ≠ Except.ok c) ∧
    Action.deleteConn connectionId ∈ (createConnection env connectionId connector info pm stc).2 := by
  rcases hA : (if isArmResourceId connector.id then
      _createConnectionInApiHub env (lastSegment connectionId) connector.id stc
    else
      createConnectionInLocal env (lastSegment connectionId) connector info pm) with ⟨res, acts⟩
  rw [hA] at h
  simp only [createConnection, hA]
  simp only at h
  rw [h]
  simp [deleteConnection]

/-- Witness for C1: a local-path failure (no write callback registered). -/
theorem createConnection_cleanup_on_failure_witness :
    (createConnection
          { sampleEnv with options := { sampleOptions with writeConnectionRegistered := false } }
          "/x/conn1" sampleLocalConnector sampleInfo samplePM true).1 =
        Except.error ("Failed to create connection: " ++
          tryParseErrorMessage "Callback for write connection is not passed in service.") ∧
    (∀ c, (createConnection
          { sampleEnv with options := { sampleOptions with writeConnectionRegistered := false } }
          "/x/conn1" sampleLocalConnector sampleInfo samplePM true).1 ≠ Except.ok c) ∧
    Action.deleteConn "/x/conn1" ∈ (createConnection
          { sampleEnv with options := { sampleOptions with writeConnectionRegistered := false } }
          "/x/conn1" sampleLocalConnector sampleInfo samplePM true).2 :=
  createConnection_cleanup_on_failure _ "/x/conn1" sampleLocalConnector sampleInfo samplePM true
    "Callback for write connection is not passed in service." (by rfl)

/-! ## C2: ACL creation rollback in the API-hub path -/

/-- The ACL reconciliation step only ever reads ACLs and puts access
policies: it never deletes or tests a connection itself. -/
theorem aclActs_shape (env : Env) (connection : Connection) (identityId : Option String) :
    ∀ a ∈ (_createConnectionAclIfNeeded env connection identityId).2,
      (∃ cid, a = Action.getAcls cid) ∨
      (∃ cid p o t l, a = Action.putAccessPolicy cid p o t l) := by
  intro a ha
  unfold _createConnectionAclIfNeeded at ha
  cases hw : env.options.workflowAppDetails with
  | none => rw [hw] at ha; simp at ha
  | some wad =>
    rw [hw] at ha
    simp only at ha
    split at ha
    · simp at ha
    · split at ha
      · simp at ha
      · cases hf : env.aclFetchResult with
        | error e =>
          simp only [_getConnectionAcls, hf] at ha
          simp only [List.mem_singleton] at ha
          exact Or.inl ⟨connection.id, ha⟩
        | ok acls =>
          simp only [_getConnectionAcls, hf] at ha
          split at ha
          · simp only [_createAccessPolicyInConnection, List.singleton_append,
              List.mem_cons, List.mem_singleton, List.not_mem_nil, or_false] at ha
            rcases ha with ha | ha
            · exact Or.inl ⟨connection.id, ha⟩
            · exact Or.inr ⟨_, _, _, _, _, ha⟩
          · simp only [List.mem_singleton] at ha
            exact Or.inl ⟨connection.id, ha⟩

/-- C2. In the API-hub path, once the identity guard has passed and the
API-hub creation succeeded: if and only if the ACL creation step
(`_createConnectionAclIfNeeded`) fails, the just-created connection is
deleted and the error `Acl creation failed for connection. Deleting the
connection.` is thrown (and no connection test happens); when the ACL step
succeeds nothing is deleted, and the connection test — exactly when
`shouldTestConnection` — comes after the ACL actions. -/
theorem apiHub_acl_rollback (env : Env) (connectionName connectorId : String)
    (stc : Bool) (connection : Connection)
    (hguard : (match env.options.workflowAppDetails with
               | some details => !isIdentityAssociatedWithLogicApp details.identity
               | none => false) = false)
    (hcreate : env.apiHubCreateResult = .ok connection) :
    (∀ er aclActs, _createConnectionAclIfNeeded env connection none = (.error er, aclActs) →
       _createConnectionInApiHub env connectionName connectorId stc =
         (.error "Acl creation failed for connection. Deleting the connection.",
           Action.apiHubCreate connectionName connectorId :: aclActs ++
             [Action.deleteConn (getAzureConnectionRequestPath env.options connectionName)]) ∧
       (∀ tid, Action.testConn tid ∉ (_createConnectionInApiHub env connectionName connectorId stc).2)) ∧
    (∀ aclActs, _createConnectionAclIfNeeded env connection none = (.ok (), aclActs) →
       (_createConnectionInApiHub env connectionName connectorId stc).2 =
         Action.apiHubCreate connectionName connectorId :: aclActs ++
           (if stc then [Action.testConn connection.id] else []) ∧
       (∀ cid, Action.deleteConn cid ∉ (_createConnectionInApiHub env connectionName connectorId stc).2) ∧
       (stc = false → (_createConnectionInApiHub env connectionName connectorId stc).1 = .ok connection)) := by
  constructor
  · intro er aclActs hacl
    have hshape := aclActs_shape env connection none
    rw [hacl] at hshape
    have heq : _createConnectionInApiHub env connectionName connectorId stc =
        (.error "Acl creation failed for connection. Deleting the connection.",
          Action.apiHubCreate connectionName connectorId :: aclActs ++
            [Action.deleteConn (getAzureConnectionRequestPath env.options connectionName)]) := by
      simp only [_createConnectionInApiHub]
      rw [hguard]
      simp only [Bool.false_eq_true, if_false, createConnectionInApiHub, hcreate, hacl,
        deleteConnection, List.singleton_append]
    refine ⟨heq, ?_⟩
    rw [heq]
    intro tid htid
    rcases List.mem_cons.mp htid with h | h
    · exact Action.noConfusion h
    · rcases List.mem_append.mp h with h | h
      · rcases hshape _ h with ⟨c, hc⟩ | ⟨c, p, o, t, l, hc⟩ <;> exact Action.noConfusion hc
      · exact Action.noConfusion (List.mem_singleton.mp h)
  · intro aclActs hacl
    have hshape := aclActs_shape env connection none
    rw [hacl] at hshape
    have heq : _createConnectionInApiHub env connectionName connectorId stc =
        (if stc then
            (match env.testConnectionResult with
              | .error e => .error e
              | .ok _ => .ok connection)
          else .ok connection,
          Action.apiHubCreate connectionName connectorId :: aclActs ++
            (if stc then [Action.testConn connection.id] else [])) := by
      simp only [_createConnectionInApiHub]
      rw [hguard]
      simp only [Bool.false_eq_true, if_false, createConnectionInApiHub, hcreate, hacl]
      cases stc with
      | true =>
        simp only [if_true, testConnection]
        cases env.testConnectionResult <;>
          simp [List.singleton_append, List.append_assoc]
      | false =>
        simp [List.singleton_append]
    refine ⟨by rw [heq], ?_, ?_⟩
    · rw [heq]
      intro cid hcid
      rcases List.mem_cons.mp hcid with h | h
      · exact Action.noConfusion h
      · rcases List.mem_append.mp h with h | h
        · rcases hshape _ h with ⟨c, hc⟩ | ⟨c, p, o, t, l, hc⟩ <;> exact Action.noConfusion hc
        · cases stc with
          | true => exact Action.noConfusion (List.mem_singleton.mp h)
          | false => simp at h
    · intro hstc
      rw [heq, hstc]
      rfl

/-- Witness for C2: with a failing ACL fetch, the API-hub path deletes the
created connection and throws the ACL error. -/
theorem apiHub_acl_rollback_witness :
    _createConnectionInApiHub { sampleEnv with aclFetchResult := .error "boom" }
        "conn1" "/subscriptions/s/providers/Microsoft.Web/apis/sql" true =
      (.error "Acl creation failed for connection. Deleting the connection.",
        Action.apiHubCreate "conn1" "/subscriptions/s/providers/Microsoft.Web/apis/sql" ::
          [Action.getAcls sampleConnection.id] ++
          [Action.deleteConn (getAzureConnectionRequestPath sampleOptions "conn1")]) ∧
    (∀ tid, Action.testConn tid ∉
      (_createConnectionInApiHub { sampleEnv with aclFetchResult := .error "boom" }
        "conn1" "/subscriptions/s/providers/Microsoft.Web/apis/sql" true).2) :=
  (apiHub_acl_rollback { sampleEnv with aclFetchResult := .error "boom" }
      "conn1" "/subscriptions/s/providers/Microsoft.Web/apis/sql" true sampleConnection
      rfl rfl).1 "boom" [Action.getAcls sampleConnection.id] (by rfl)

/-! ## C5: ACL reconciliation -/

/-- C5. `_createConnectionAclIfNeeded` returns without any API call when the
connection id is not an ARM resource id or workflow app details are absent;
otherwise, once the existing ACLs are fetched, it creates a new access policy
if and only if no existing ACL's principal identity matches both the chosen
identity's objectId and the tenantId; the created policy is named
`appName-objectId` and binds the identity's objectId and tenantId to the
connection resource. -/
theorem aclIfNeeded_reconciliation (env : Env) (connection : Connection)
    (identityId : Option String) :
    ((isArmResourceId connection.id = false ∨ env.options.workflowAppDetails = none) →
        _createConnectionAclIfNeeded env connection identityId = (.ok (), [])) ∧
    (∀ wad acls, env.options.workflowAppDetails = some wad →
       isArmResourceId connection.id = true →
       isIdentityAssociatedWithLogicApp wad.identity = true →
       env.aclFetchResult = .ok acls →
       let idd := _getIdentityDetailsForApiHubAuth (castManagedIdentity wad.identity)
         env.options.tenantId identityId
       let matched := acls.any (fun acl =>
         acl.properties.principal.identity.objectId == idd.principalId &&
         acl.properties.principal.identity.tenantId == env.options.tenantId)
       (matched = true →
          _createConnectionAclIfNeeded env connection identityId =
            (.ok (), [Action.getAcls connection.id])) ∧
       (matched = false →
          _createConnectionAclIfNeeded env connection identityId =
            (.ok (), [Action.getAcls connection.id,
              Action.putAccessPolicy connection.id (wad.appName ++ "-" ++ idd.principalId)
                idd.principalId idd.tenantId (connection.location.getD "")]))) := by
  constructor
  · intro hguard
    unfold _createConnectionAclIfNeeded
    cases hw : env.options.workflowAppDetails with
    | none => rfl
    | some wad =>
      rcases hguard with harm | hnone
      · simp [harm]
      · exact absurd (hw.symm.trans hnone) (by simp)
  · intro wad acls hw harm hass hf
    simp only
    constructor
    · intro hmatched
      unfold _createConnectionAclIfNeeded
      rw [hw]
      simp only [harm, hass, Bool.not_true, Bool.false_eq_true, if_false,
        _getConnectionAcls, hf, hmatched]
    · intro hmatched
      unfold _createConnectionAclIfNeeded
      rw [hw]
      simp only [harm, hass, Bool.not_true, Bool.false_eq_true, if_false,
        _getConnectionAcls, hf, hmatched, Bool.not_false, if_true,
        _createAccessPolicyInConnection, List.singleton_append]

/-- Witness for C5: a fetched empty ACL list leads to one access-policy
creation named `app-object1` binding objectId `object1` in tenant
`tenant1`. -/
theorem aclIfNeeded_reconciliation_witness :
    _createConnectionAclIfNeeded sampleEnv sampleConnection none =
      (.ok (), [Action.getAcls sampleConnection.id,
        Action.putAccessPolicy sampleConnection.id "app-object1" "object1" "tenant1" "westus"]) :=
  ((aclIfNeeded_reconciliation sampleEnv sampleConnection none).2
      { appName := "app", identity := some sampleIdentity } [] rfl rfl rfl rfl).2 rfl

/-! ## C6: branch selection and payload selection -/

/-- Configuration building only ever performs service-provider connection
tests. -/
theorem cfgActs_shape (env : Env) (connectionName : String)
    (info : ConnectionCreationInfo) (connector : Connector)
    (pm : ConnectionParametersMetadata) :
    ∀ a ∈ (_getConnectionsConfiguration env connectionName info connector pm).2,
      ∃ u r, a = Action.testServiceProvider u r := by
  intro a ha
  unfold _getConnectionsConfiguration at ha
  cases htype : pm.connectionMetadata.bind (fun m => m.type) with
  | none =>
    rw [htype] at ha
    cases hurl : connector.properties.testConnectionUrl with
    | none => rw [hurl] at ha; simp at ha
    | some url =>
      rw [hurl] at ha
      cases hts : env.testSPResult with
      | error e => rw [hts] at ha; simp only [List.mem_singleton] at ha; exact ⟨_, _, ha⟩
      | ok u => rw [hts] at ha; simp only [List.mem_singleton] at ha; exact ⟨_, _, ha⟩
  | some t =>
    cases t with
    | Function =>
      rw [htype] at ha
      cases hcv : convertToFunctionsConnectionsData connectionName info with
      | none => rw [hcv] at ha; simp at ha
      | some d => rw [hcv] at ha; simp at ha
    | ApiManagement => rw [htype] at ha; simp at ha
    | ServiceProvider =>
      rw [htype] at ha
      cases hurl : connector.properties.testConnectionUrl with
      | none => rw [hurl] at ha; simp at ha
      | some url =>
        rw [hurl] at ha
        cases hts : env.testSPResult with
        | error e => rw [hts] at ha; simp only [List.mem_singleton] at ha; exact ⟨_, _, ha⟩
        | ok u => rw [hts] at ha; simp only [List.mem_singleton] at ha; exact ⟨_, _, ha⟩

/-- Everything after the optional creation-client step only performs
creation-client calls, service-provider tests and the local write. -/
theorem localAfterClient_shape (env : Env) (connectionName : String)
    (connector : Connector) (pm : ConnectionParametersMetadata)
    (p : ConnectionCreationInfo × List Action)
    (hp : ∀ x ∈ p.2, ∃ n, x = Action.creationClient n) :
    ∀ a ∈ (localAfterClient env connectionName connector pm p).2,
      (∃ x, a = Action.creationClient x) ∨
      (∃ u r, a = Action.testServiceProvider u r) ∨
      (∃ pl k, a = Action.writeLocal pl k) := by
  intro a ha
  unfold localAfterClient at ha
  by_cases hw : (!env.options.writeConnectionRegistered) = true
  · rw [if_pos hw] at ha
    rcases hp a ha with ⟨n, hn⟩
    exact Or.inl ⟨n, hn⟩
  · rw [if_neg hw] at ha
    rcases hcfg : _getConnectionsConfiguration env connectionName p.1 connector pm with ⟨cfgRes, cfgActs⟩
    have hcfgShape := cfgActs_shape env connectionName p.1 connector pm
    rw [hcfg] at hcfgShape
    cases cfgRes with
    | error e =>
      simp only [hcfg] at ha
      rcases List.mem_append.mp ha with h | h
      · rcases hp a h with ⟨n, hn⟩; exact Or.inl ⟨n, hn⟩
      · rcases hcfgShape a h with ⟨u, r, hur⟩
        exact Or.inr (Or.inl ⟨u, r, hur⟩)
    | ok dc =>
      rcases dc with ⟨connectionsData, connection⟩
      simp only [hcfg] at ha
      cases hwr : env.writeConnectionResult with
      | error e =>
        simp only [hwr] at ha
        rcases List.mem_append.mp ha with h | h
        · rcases List.mem_append.mp h with h | h
          · rcases hp a h with ⟨n, hn⟩; exact Or.inl ⟨n, hn⟩
          · rcases hcfgShape a h with ⟨u, r, hur⟩
            exact Or.inr (Or.inl ⟨u, r, hur⟩)
        · simp only [List.mem_singleton] at h
          exact Or.inr (Or.inr ⟨_, _, h⟩)
      | ok u =>
        simp only [hwr] at ha
        rcases List.mem_append.mp ha with h | h
        · rcases List.mem_append.mp h with h | h
          · rcases hp a h with ⟨n, hn⟩; exact Or.inl ⟨n, hn⟩
          · rcases hcfgShape a h with ⟨u2, r, hur⟩
            exact Or.inr (Or.inl ⟨u2, r, hur⟩)
        · simp only [List.mem_singleton] at h
          exact Or.inr (Or.inr ⟨_, _, h⟩)

/-- The local creation path only performs creation-client calls,
service-provider tests and the local write. -/
theorem localActs_shape (env : Env) (connectionName : String)
    (connector : Connector) (info : ConnectionCreationInfo)
    (pm : ConnectionParametersMetadata) :
    ∀ a ∈ (createConnectionInLocal env connectionName connector info pm).2,
      (∃ x, a = Action.creationClient x) ∨
      (∃ u r, a = Action.testServiceProvider u r) ∨
      (∃ pl k, a = Action.writeLocal pl k) := by
  intro a ha
  unfold createConnectionInLocal at ha
  cases hname : pm.connectionMetadata.bind (fun m => m.connectionCreationClient) with
  | none =>
    simp only [hname] at ha
    exact localAfterClient_shape env connectionName connector pm (info, []) (by simp) a ha
  | some clientName =>
    simp only [hname] at ha
    by_cases hreg : env.registeredCreationClients.contains clientName = true
    · rw [if_pos hreg] at ha
      cases hcc : env.creationClientResult with
      | error e => simp only [hcc] at ha; simp at ha
      | ok newInfo =>
        simp only [hcc] at ha
        refine localAfterClient_shape env connectionName connector pm
          (newInfo, [Action.creationClient clientName]) ?_ a ha
        intro x hx
        simp only [List.mem_singleton] at hx
        exact ⟨clientName, hx⟩
    · rw [if_neg hreg] at ha
      simp at ha

/-- The API-hub creation path only performs the API-hub create, ACL reads
and writes, connection tests and the rollback delete. -/
theorem apiHubActs_shape (env : Env) (connectionName connectorId : String) (stc : Bool) :
    ∀ a ∈ (_createConnectionInApiHub env connectionName connectorId stc).2,
      (∃ x y, a = Action.apiHubCreate x y) ∨ (∃ x, a = Action.getAcls x) ∨
      (∃ x p o t l, a = Action.putAccessPolicy x p o t l) ∨
      (∃ x, a = Action.testConn x) ∨ (∃ x, a = Action.deleteConn x) := by
  intro a ha
  unfold _createConnectionInApiHub at ha
  by_cases hguard : (match env.options.workflowAppDetails with
      | some details => !isIdentityAssociatedWithLogicApp details.identity
      | none => false) = true
  · rw [if_pos hguard] at ha
    simp at ha
  · rw [if_neg hguard] at ha
    simp only [createConnectionInApiHub] at ha
    cases hcr : env.apiHubCreateResult with
    | error e =>
      simp only [hcr] at ha
      simp only [List.mem_singleton] at ha
      exact Or.inl ⟨_, _, ha⟩
    | ok connection =>
      simp only [hcr] at ha
      rcases hacleq : _createConnectionAclIfNeeded env connection none with ⟨aclRes, aclActs⟩
      have hacl := aclActs_shape env connection none
      rw [hacleq] at hacl
      cases aclRes with
      | error er =>
        simp only [hacleq, deleteConnection, List.singleton_append] at ha
        rcases List.mem_cons.mp ha with h | h
        · exact Or.inl ⟨_, _, h⟩
        · rcases List.mem_append.mp h with h | h
          · rcases hacl a h with ⟨c, hc⟩ | ⟨c, p, o, t, l, hc⟩
            · exact Or.inr (Or.inl ⟨c, hc⟩)
            · exact Or.inr (Or.inr (Or.inl ⟨c, p, o, t, l, hc⟩))
          · simp only [List.mem_singleton] at h
            exact Or.inr (Or.inr (Or.inr (Or.inr ⟨_, h⟩)))
      | ok u =>
        simp only [hacleq] at ha
        have hbase : ∀ x ∈ [Action.apiHubCreate connectionName connectorId] ++ aclActs,
            (∃ x1 y, x = Action.apiHubCreate x1 y) ∨ (∃ x1, x = Action.getAcls x1) ∨
            (∃ x1 p o t l, x = Action.putAccessPolicy x1 p o t l) ∨
            (∃ x1, x = Action.testConn x1) ∨ (∃ x1, x = Action.deleteConn x1) := by
          intro x hx
          rcases List.mem_append.mp hx with h | h
          · simp only [List.mem_singleton] at h
            exact Or.inl ⟨_, _, h⟩
          · rcases hacl x h with ⟨c, hc⟩ | ⟨c, p, o, t, l, hc⟩
            · exact Or.inr (Or.inl ⟨c, hc⟩)
            · exact Or.inr (Or.inr (Or.inl ⟨c, p, o, t, l, hc⟩))
        cases stc with
        | false =>
          simp only [Bool.false_eq_true, if_false] at ha
          exact hbase a ha
        | true =>
          simp only [if_true, testConnection] at ha
          cases htc : env.testConnectionResult with
          | error e =>
            simp only [htc] at ha
            rcases List.mem_append.mp ha with h | h
            · exact hbase a h
            · simp only [List.mem_singleton] at h
              exact Or.inr (Or.inr (Or.inr (Or.inl ⟨_, h⟩)))
          | ok v =>
            simp only [htc] at ha
            rcases List.mem_append.mp ha with h | h
            · exact hbase a h
            · simp only [List.mem_singleton] at h
              exact Or.inr (Or.inr (Or.inr (Or.inl ⟨_, h⟩)))

/-- Every action of `createConnection` is an action of the chosen path or
the final best-effort delete. -/
theorem createConnection_trace_cases (env : Env) (connectionId : String)
    (connector : Connector) (info : ConnectionCreationInfo)
    (pm : ConnectionParametersMetadata) (stc : Bool) :
    ∀ a ∈ (createConnection env connectionId connector info pm stc).2,
      a ∈ (if isArmResourceId connector.id then
             _createConnectionInApiHub env (lastSegment connectionId) connector.id stc
           else
             createConnectionInLocal env (lastSegment connectionId) connector info pm).2 ∨
      a = Action.deleteConn connectionId := by
  intro a ha
  simp only [createConnection] at ha
  rcases hatt : (if isArmResourceId connector.id then
      _createConnectionInApiHub env (lastSegment connectionId) connector.id stc
    else
      createConnectionInLocal env (lastSegment connectionId) connector info pm) with ⟨res, acts⟩
  cases res with
  | ok c =>
    simp only [hatt] at ha
    exact Or.inl ha
  | error e =>
    simp only [hatt, deleteConnection] at ha
    rcases List.mem_append.mp ha with h | h
    · exact Or.inl h
    · simp only [List.mem_singleton] at h
      exact Or.inr h

/-- C6. `createConnection` branches on the connector id: ARM connector ids
take the API-hub path (no local write, no service-provider test ever
happens), all others the local path (no API-hub create ever happens); inside
the local path the payload is selected by the connection type tag —
`Function`, `ApiManagement`, or (default) service provider — and a
service-provider connector declaring a `testConnectionUrl` has the raw
(unsubstituted) connection tested, the configuration being returned only
when that test succeeds. -/
theorem createConnection_branching (env : Env) (connectionId : String)
    (connector : Connector) (info : ConnectionCreationInfo)
    (pm : ConnectionParametersMetadata) (stc : Bool) :
    (isArmResourceId connector.id = true →
       ∀ a ∈ (createConnection env connectionId connector info pm stc).2,
         (∀ pl k, a ≠ Action.writeLocal pl k) ∧
         (∀ u r, a ≠ Action.testServiceProvider u r)) ∧
    (isArmResourceId connector.id = false →
       ∀ a ∈ (createConnection env connectionId connector info pm stc).2,
         ∀ x y, a ≠ Action.apiHubCreate x y) ∧
    (∀ d conn,
       (_getConnectionsConfiguration env (lastSegment connectionId) info connector pm).1 =
         .ok (d, conn) →
       (pm.connectionMetadata.bind (fun m => m.type) = some ConnectionType.Function →
          ∃ m, d.connectionData = LocalConnectionModel.functions m ∧
            d.pathLocation = [functionsLocation]) ∧
       (pm.connectionMetadata.bind (fun m => m.type) = some ConnectionType.ApiManagement →
          ∃ m, d.connectionData = LocalConnectionModel.apim m ∧
            d.pathLocation = [apimLocation]) ∧
       ((pm.connectionMetadata.bind (fun m => m.type) = none ∨
           pm.connectionMetadata.bind (fun m => m.type) = some ConnectionType.ServiceProvider) →
          ∃ m, d.connectionData = LocalConnectionModel.serviceProvider m ∧
            d.pathLocation = [serviceProviderLocation])) ∧
    ((pm.connectionMetadata.bind (fun m => m.type) = none ∨
        pm.connectionMetadata.bind (fun m => m.type) = some ConnectionType.ServiceProvider) →
       ∀ url, connector.properties.testConnectionUrl = some url →
         (_getConnectionsConfiguration env (lastSegment connectionId) info connector pm).2 =
           [Action.testServiceProvider url
             (convertToServiceProviderConnectionsData (lastSegment connectionId)
               connector.id info pm).2] ∧
         (∀ e, env.testSPResult = .error e →
           (_getConnectionsConfiguration env (lastSegment connectionId) info connector pm).1 =
             .error e)) := by
  refine ⟨?_, ?_, ?_, ?_⟩
  · intro harm a ha
    rcases createConnection_trace_cases env connectionId connector info pm stc a ha with h | h
    · rw [if_pos harm] at h
      rcases apiHubActs_shape env (lastSegment connectionId) connector.id stc a h with
        ⟨x, y, hc⟩ | ⟨x, hc⟩ | ⟨x, p, o, t, l, hc⟩ | ⟨x, hc⟩ | ⟨x, hc⟩ <;>
        subst hc <;> exact ⟨fun pl k => Action.noConfusion, fun u r => Action.noConfusion⟩
    · subst h
      exact ⟨fun pl k => Action.noConfusion, fun u r => Action.noConfusion⟩
  · intro harm a ha
    rcases createConnection_trace_cases env connectionId connector info pm stc a ha with h | h
    · rw [if_neg (by rw [harm]; exact Bool.false_ne_true)] at h
      rcases localActs_shape env (lastSegment connectionId) connector info pm a h with
        ⟨x, hc⟩ | ⟨u, r, hc⟩ | ⟨pl, k, hc⟩ <;> subst hc <;> exact fun x y => Action.noConfusion
    · subst h
      exact fun x y => Action.noConfusion
  · intro d conn hok
    simp only [_getConnectionsConfiguration] at hok
    refine ⟨?_, ?_, ?_⟩
    · intro htype
      simp only [htype] at hok
      cases hcv : convertToFunctionsConnectionsData (lastSegment connectionId) info with
      | none => simp [hcv] at hok
      | some cd =>
        simp only [hcv, Except.ok.injEq, Prod.mk.injEq] at hok
        rcases hok with ⟨h1, h2⟩
        rw [← h1]
        exact ⟨cd.connectionData, rfl, convertToFunctionsConnectionsData_pathLocation _ _ _ hcv⟩
    · intro htype
      simp only [htype, Except.ok.injEq, Prod.mk.injEq] at hok
      rcases hok with ⟨h1, h2⟩
      rw [← h1]
      exact ⟨(convertToApimConnectionsData (lastSegment connectionId) info).connectionData, rfl, rfl⟩
    · intro htype
      have hdef : ∃ m, d.connectionData = LocalConnectionModel.serviceProvider m ∧
          d.pathLocation = [serviceProviderLocation] := by
        rcases htype with h | h <;>
        · simp only [h] at hok
          cases hurl : connector.properties.testConnectionUrl with
          | none =>
            rw [hurl] at hok
            simp only [Except.ok.injEq, Prod.mk.injEq] at hok
            rcases hok with ⟨h1, h2⟩
            rw [← h1]
            exact ⟨_, rfl, convertToServiceProviderConnectionsData_pathLocation _ _ _ _⟩
          | some url =>
            rw [hurl] at hok
            cases hts : env.testSPResult with
            | error e => simp [hts] at hok
            | ok u =>
              simp only [hts, Except.ok.injEq, Prod.mk.injEq] at hok
              rcases hok with ⟨h1, h2⟩
              rw [← h1]
              exact ⟨_, rfl, convertToServiceProviderConnectionsData_pathLocation _ _ _ _⟩
      exact hdef
  · intro htype url hurl
    rcases htype with h | h <;>
    · simp only [_getConnectionsConfiguration, h, hurl]
      cases hts : env.testSPResult with
      | error e =>
        refine ⟨rfl, ?_⟩
        intro e2 hts2
        injection hts2 with h2
        rw [← h2]
      | ok u =>
        refine ⟨rfl, ?_⟩
        intro e2 hts2
        exact Except.noConfusion hts2

/-- Witness for C6: a service-provider connector with a test URL has its raw
connection tested in the configuration step. -/
theorem createConnection_branching_witness :
    (_getConnectionsConfiguration sampleEnv (lastSegment "/x/conn1") sampleInfo
        sampleSPTestConnector samplePM).2 =
      [Action.testServiceProvider "/test"
        (convertToServiceProviderConnectionsData (lastSegment "/x/conn1")
          sampleSPTestConnector.id sampleInfo samplePM).2] ∧
    (∀ e, sampleEnv.testSPResult = .error e →
      (_getConnectionsConfiguration sampleEnv (lastSegment "/x/conn1") sampleInfo
          sampleSPTestConnector samplePM).1 = .error e) :=
  (createConnection_branching sampleEnv "/x/conn1" sampleSPTestConnector sampleInfo
      samplePM true).2.2.2 (Or.inl rfl) "/test" rfl

/-! ## C3: counting best-effort deletes -/

theorem countDeletes_append (l₁ l₂ : List Action) :
    countDeletes (l₁ ++ l₂) = countDeletes l₁ + countDeletes l₂ := by
  simp [countDeletes, List.filter_append]

theorem countDeletes_of_no_delete (l : List Action)
    (h : ∀ a ∈ l, ∀ x, a ≠ Action.deleteConn x) : countDeletes l = 0 := by
  simp only [countDeletes, List.length_eq_zero, List.filter_eq_nil_iff]
  intro a ha
  rcases a with _ | _ | _ | _ | _ | _ | _ | _ | _ | x | _ | _ | _ | _ | _ | _ <;> simp
  exact absurd rfl (h (Action.deleteConn x) ha x)

theorem countDeletes_acl (env : Env) (connection : Connection) (identityId : Option String) :
    countDeletes (_createConnectionAclIfNeeded env connection identityId).2 = 0 := by
  apply countDeletes_of_no_delete
  intro a ha x
  rcases aclActs_shape env connection identityId a ha with ⟨c, hc⟩ | ⟨c, p, o, t, l, hc⟩ <;>
    subst hc <;> exact Action.noConfusion
-- placeholder
theorem countDeletes_local (env : Env) (connectionName : String) (connector : Connector)
    (info : ConnectionCreationInfo) (pm : ConnectionParametersMetadata) :
    countDeletes (createConnectionInLocal env connectionName connector info pm).2 = 0 := by
  apply countDeletes_of_no_delete
  intro a ha x
  rcases localActs_shape env connectionName connector info pm a ha with
    ⟨c, hc⟩ | ⟨u, r, hc⟩ | ⟨pl, k, hc⟩ <;> subst hc <;> exact Action.noConfusion

theorem apiHub_countDeletes (env : Env) (connectionName connectorId : String) (stc : Bool) :
    countDeletes (_createConnectionInApiHub env connectionName connectorId stc).2 ≤ 1 ∧
    (∀ c, (_createConnectionInApiHub env connectionName connectorId stc).1 = .ok c →
       countDeletes (_createConnectionInApiHub env connectionName connectorId stc).2 = 0) ∧
    (countDeletes (_createConnectionInApiHub env connectionName connectorId stc).2 = 1 →
       ∃ c, env.apiHubCreateResult = .ok c ∧
         ∃ er acts, _createConnectionAclIfNeeded env c none = (.error er, acts)) := by
  unfold _createConnectionInApiHub
  by_cases hguard : (match env.options.workflowAppDetails with
      | some details => !isIdentityAssociatedWithLogicApp details.identity
      | none => false) = true
  · rw [if_pos hguard]
    exact ⟨by simp [countDeletes], fun c hc => Except.noConfusion hc, by simp [countDeletes]⟩
  · rw [if_neg hguard]
    simp only [createConnectionInApiHub]
    cases hcr : env.apiHubCreateResult with
    | error e =>
      exact ⟨by simp [countDeletes], fun c hc => Except.noConfusion hc, by simp [countDeletes]⟩
    | ok connection =>
      rcases hacleq : _createConnectionAclIfNeeded env connection none with ⟨aclRes, aclActs⟩
      have hacl0 : countDeletes aclActs = 0 := by
        have := countDeletes_acl env connection none
        rw [hacleq] at this
        exact this
      have hone : countDeletes [Action.apiHubCreate connectionName connectorId] = 0 := rfl
      cases aclRes with
      | error er =>
        simp only [hacleq]
        refine ⟨?_, fun c hc => Except.noConfusion hc, ?_⟩
        · rw [deleteConnection, countDeletes_append, countDeletes_append, hacl0, hone,
            show countDeletes
              [Action.deleteConn (getAzureConnectionRequestPath env.options connectionName)] = 1
              from rfl]
        · intro _
          exact ⟨connection, rfl, er, aclActs, hacleq⟩
      | ok u =>
        simp only [hacleq]
        cases stc with
        | false =>
          simp only [Bool.false_eq_true, if_false]
          refine ⟨?_, ?_, ?_⟩
          · rw [countDeletes_append, hacl0, hone]
            decide
          · intro c hc
            rw [countDeletes_append, hacl0, hone]
          · intro hcd
            rw [countDeletes_append, hacl0, hone] at hcd
            exact absurd hcd (by decide)
        | true =>
          simp only [if_true, testConnection]
          have htest : countDeletes [Action.testConn connection.id] = 0 := rfl
          cases htc : env.testConnectionResult with
          | error e =>
            refine ⟨?_, fun c hc => Except.noConfusion hc, ?_⟩
            · rw [countDeletes_append, countDeletes_append, hacl0, hone, htest]
              decide
            · intro hcd
              rw [countDeletes_append, countDeletes_append, hacl0, hone, htest] at hcd
              exact absurd hcd (by decide)
          | ok v =>
            refine ⟨?_, ?_, ?_⟩
            · rw [countDeletes_append, countDeletes_append, hacl0, hone, htest]
              decide
            · intro c hc
              rw [countDeletes_append, countDeletes_append, hacl0, hone, htest]
            · intro hcd
              rw [countDeletes_append, countDeletes_append, hacl0, hone, htest] at hcd
              exact absurd hcd (by decide)

theorem createConnection_countDeletes (env : Env) (connectionId : String)
    (connector : Connector) (info : ConnectionCreationInfo)
    (pm : ConnectionParametersMetadata) (stc : Bool) :
    countDeletes (createConnection env connectionId connector info pm stc).2 ≤ 2 ∧
    (∀ c, (createConnection env connectionId connector info pm stc).1 = .ok c →
       countDeletes (createConnection env connectionId connector info pm stc).2 = 0) ∧
    (countDeletes (createConnection env connectionId connector info pm stc).2 = 2 →
       isArmResourceId connector.id = true ∧
       ∃ c, env.apiHubCreateResult = .ok c ∧
         ∃ er acts, _createConnectionAclIfNeeded env c none = (.error er, acts)) := by
  simp only [createConnection]
  by_cases harm : isArmResourceId connector.id = true
  · rw [if_pos harm]
    rcases hatt : _createConnectionInApiHub env (lastSegment connectionId) connector.id stc
      with ⟨res, acts⟩
    have hcnt := apiHub_countDeletes env (lastSegment connectionId) connector.id stc
    rw [hatt] at hcnt
    cases res with
    | ok c2 =>
      simp only
      refine ⟨?_, ?_, ?_⟩
      · exact le_trans hcnt.1 (by simp)
      · intro c hc
        exact hcnt.2.1 c2 rfl
      · intro hcd
        exact absurd (le_trans (le_of_eq hcd.symm) hcnt.1) (by simp)
    | error e =>
      simp only
      rw [deleteConnection, countDeletes_append]
      have h1 : countDeletes [Action.deleteConn connectionId] = 1 := by simp [countDeletes]
      refine ⟨?_, ?_, ?_⟩
      · rw [h1]; exact Nat.add_le_add hcnt.1 (le_refl 1)
      · intro c hc; exact Except.noConfusion hc
      · intro hcd
        rw [h1] at hcd
        have : countDeletes acts = 1 := by
          have := Nat.succ_injective hcd
          exact this
        exact ⟨harm, hcnt.2.2 this⟩
  · rw [if_neg harm]
    rcases hatt : createConnectionInLocal env (lastSegment connectionId) connector info pm
      with ⟨res, acts⟩
    have hcnt : countDeletes acts = 0 := by
      have := countDeletes_local env (lastSegment connectionId) connector info pm
      rw [hatt] at this
      exact this
    cases res with
    | ok c2 =>
      exact ⟨by simp [hcnt], fun c hc => hcnt, by simp [hcnt]⟩
    | error e =>
      simp only
      rw [deleteConnection, countDeletes_append, hcnt]
      refine ⟨by simp [countDeletes], fun c hc => Except.noConfusion hc, ?_⟩
      intro hcd
      exact absurd hcd (by simp [countDeletes])

theorem countDeletes_oauthCatch (connectionId : String) (acts : List Action) (e : String) :
    countDeletes (oauthCatch connectionId acts e).2 = countDeletes acts + 1 := by
  rw [show (oauthCatch connectionId acts e).2 = acts ++ [Action.deleteConn connectionId] from rfl,
    countDeletes_append, show countDeletes [Action.deleteConn connectionId] = 1 from rfl]

theorem oauth_countDeletes (env : Env) (connectionId connectorId : String)
    (info : ConnectionCreationInfo) (pm : ConnectionParametersMetadata) :
    countDeletes (createAndAuthorizeOAuthConnection env connectionId connectorId info pm).2 ≤ 2 := by
  unfold createAndAuthorizeOAuthConnection
  cases hgc : env.getConnectorResult with
  | error e =>
    rw [show countDeletes [Action.getConnector connectorId] = 0 from rfl]
    decide
  | ok connector =>
    rcases hcr : createConnection env connectionId connector info pm false with ⟨createRes, createActs⟩
    have hc2 := createConnection_countDeletes env connectionId connector info pm false
    rw [hcr] at hc2
    have hg0 : countDeletes [Action.getConnector connectorId] = 0 := rfl
    simp only [hcr]
    cases createRes with
    | error e =>
      rw [countDeletes_append, hg0, Nat.zero_add]
      exact le_trans hc2.1 (by decide)
    | ok connection =>
      have h0 : countDeletes createActs = 0 := hc2.2.1 connection rfl
      have hnil : countDeletes ([] : List Action) = 0 := rfl
      have hf0 : countDeletes [Action.fetchConsentUrl connectionId] = 0 := rfl
      cases hcu : env.consentUrlResult with
      | error e =>
        simp only [countDeletes_oauthCatch, countDeletes_append, h0, hnil, hg0, hf0]
        omega
      | ok consentUrl =>
        have hp0 : countDeletes [Action.openPopup consentUrl] = 0 := rfl
        cases hl : env.loginResult with
        | error e =>
          simp only [countDeletes_oauthCatch, countDeletes_append, h0, hnil, hg0, hf0, hp0]
          omega
        | ok loginResponse =>
          cases hle : loginResponse.error with
          | some p =>
            simp only [hle, countDeletes_oauthCatch, countDeletes_append, h0, hnil, hg0, hf0, hp0]
            omega
          | none =>
            rcases hacleq : _createConnectionAclIfNeeded env connection none with ⟨aclRes, aclActs⟩
            have hacl0 : countDeletes aclActs = 0 := by
              have := countDeletes_acl env connection none
              rw [hacleq] at this
              exact this
            have hgetc0 : countDeletes [Action.getConn connection.id] = 0 := rfl
            simp only [hle]
            cases hcode : loginResponse.code with
            | some code =>
              have hcc0 : countDeletes [Action.confirmCode connectionId code] = 0 := rfl
              simp only [hcode]
              cases hcf : env.confirmResult with
              | error e =>
                simp only [countDeletes_oauthCatch, countDeletes_append, h0, hnil, hg0, hf0, hp0, hcc0]
                omega
              | ok u =>
                simp only [hacleq]
                cases aclRes with
                | error e =>
                  simp only [countDeletes_oauthCatch, countDeletes_append, h0, hnil, hg0, hf0, hp0,
                    hcc0, hacl0]
                  omega
                | ok u2 =>
                  cases hgcn : env.getConnectionResult with
                  | error e =>
                    simp only [countDeletes_oauthCatch, countDeletes_append, h0, hnil, hg0, hf0, hp0,
                      hcc0, hacl0, hgetc0]
                    omega
                  | ok fetchedConnection =>
                    have ht0 : countDeletes [Action.testConn fetchedConnection.id] = 0 := rfl
                    cases htc : env.testConnectionResult with
                    | error e =>
                      simp only [countDeletes_oauthCatch, countDeletes_append, h0, hnil, hg0, hf0, hp0,
                        hcc0, hacl0, hgetc0, ht0]
                      omega
                    | ok v =>
                      simp only [countDeletes_append, h0, hnil, hg0, hf0, hp0, hcc0, hacl0,
                        hgetc0, ht0]
                      omega
            | none =>
              simp only [hcode, hacleq]
              cases aclRes with
              | error e =>
                simp only [countDeletes_oauthCatch, countDeletes_append, h0, hnil, hg0, hf0, hp0, hacl0]
                omega
              | ok u2 =>
                cases hgcn : env.getConnectionResult with
                | error e =>
                  simp only [countDeletes_oauthCatch, countDeletes_append, h0, hnil, hg0, hf0, hp0,
                    hacl0, hgetc0]
                  omega
                | ok fetchedConnection =>
                  have ht0 : countDeletes [Action.testConn fetchedConnection.id] = 0 := rfl
                  cases htc : env.testConnectionResult with
                  | error e =>
                    simp only [countDeletes_oauthCatch, countDeletes_append, h0, hnil, hg0, hf0, hp0,
                      hacl0, hgetc0, ht0]
                    omega
                  | ok v =>
                    simp only [countDeletes_append, h0, hnil, hg0, hf0, hp0, hacl0, hgetc0, ht0]
                    omega

/-- C3 counterexample: in the API-hub path with a failing ACL fetch,
`deleteConnection` is invoked twice for the one created connection (once by
`_createConnectionInApiHub`, once by `createConnection`), refuting "at most
once". -/
theorem delete_twice_counterexample :
    1 < countDeletes (createConnection
        { sampleEnv with aclFetchResult := .error "acl fetch failed" }
        "/subscriptions/s/resourceGroups/r/providers/Microsoft.Web/connections/conn1"
        sampleArmConnector sampleInfo samplePM true).2 := by decide

/-- C3 (amended). For any one failed connection creation, `deleteConnection`
is invoked at most twice, and twice happens exactly in the API-hub path whose
ACL creation step failed (the rollback delete of `_createConnectionInApiHub`
plus the best-effort delete of `createConnection`); the OAuth path also
invokes at most two deletes per call. -/
theorem delete_on_failure_at_most_twice (env : Env) (connectionId : String)
    (connector : Connector) (info : ConnectionCreationInfo)
    (pm : ConnectionParametersMetadata) (stc : Bool)
    (connectionId2 connectorId2 : String) (info2 : ConnectionCreationInfo)
    (pm2 : ConnectionParametersMetadata) :
    countDeletes (createConnection env connectionId connector info pm stc).2 ≤ 2 ∧
    (countDeletes (createConnection env connectionId connector info pm stc).2 = 2 →
       isArmResourceId connector.id = true ∧
       ∃ c, env.apiHubCreateResult = .ok c ∧
         ∃ er acts, _createConnectionAclIfNeeded env c none = (.error er, acts)) ∧
    countDeletes (createAndAuthorizeOAuthConnection env connectionId2 connectorId2 info2 pm2).2 ≤ 2 :=
  ⟨(createConnection_countDeletes env connectionId connector info pm stc).1,
   (createConnection_countDeletes env connectionId connector info pm stc).2.2,
   oauth_countDeletes env connectionId2 connectorId2 info2 pm2⟩

/-- Witness for the amended C3 at the counterexample environment. -/
theorem delete_on_failure_at_most_twice_witness :
    countDeletes (createConnection
        { sampleEnv with aclFetchResult := .error "acl fetch failed" }
        "/subscriptions/s/resourceGroups/r/providers/Microsoft.Web/connections/conn1"
        sampleArmConnector sampleInfo samplePM true).2 ≤ 2 ∧
    (countDeletes (createConnection
        { sampleEnv with aclFetchResult := .error "acl fetch failed" }
        "/subscriptions/s/resourceGroups/r/providers/Microsoft.Web/connections/conn1"
        sampleArmConnector sampleInfo samplePM true).2 = 2 →
       isArmResourceId sampleArmConnector.id = true ∧
       ∃ c, ({ sampleEnv with aclFetchResult := .error "acl fetch failed" } : Env).apiHubCreateResult = .ok c ∧
         ∃ er acts, _createConnectionAclIfNeeded
           { sampleEnv with aclFetchResult := .error "acl fetch failed" } c none = (.error er, acts)) ∧
    countDeletes (createAndAuthorizeOAuthConnection
        { sampleEnv with aclFetchResult := .error "acl fetch failed" }
        "/x/conn2" "/subscriptions/s/providers/Microsoft.Web/apis/sql" sampleInfo samplePM).2 ≤ 2 :=
  delete_on_failure_at_most_twice
    { sampleEnv with aclFetchResult := .error "acl fetch failed" }
    "/subscriptions/s/resourceGroups/r/providers/Microsoft.Web/connections/conn1"
    sampleArmConnector sampleInfo samplePM true
    "/x/conn2" "/subscriptions/s/providers/Microsoft.Web/apis/sql" sampleInfo samplePM

/-! ## C8: the OAuth creation and authorization flow -/

theorem oauthCatch_props (connectionId : String) (acts : List Action) (e : String) :
    (oauthCatch connectionId acts e).1 =
      .ok { connection := none, errorMessage := some (tryParseErrorMessage e) } ∧
    Action.deleteConn connectionId ∈ (oauthCatch connectionId acts e).2 :=
  ⟨rfl, List.mem_append.mpr (Or.inr (List.mem_singleton.mpr rfl))⟩

/-- C8. Once the connector is fetched and the connection created (without
testing — `createConnection` is passed `shouldTestConnection = false`):
the method always resolves; a resolved result carries an error message
exactly when it carries no connection, and any resolved error message comes
with a best-effort delete of the connection; a login response carrying an
error payload resolves to only the decoded error message and deletes the
connection; on the happy path with a consent code, the code is confirmed
before ACL setup, the re-fetch and the final test, and the method resolves
with the fetched connection; and every other failing step — the consent-URL
fetch, the login promise, the code confirmation, the ACL setup, the
connection re-fetch, or the final test — likewise deletes the connection and
resolves with a result containing only that step's error message. -/
theorem oauth_flow (env : Env) (connectionId connectorId : String)
    (info : ConnectionCreationInfo) (pm : ConnectionParametersMetadata)
    (connector : Connector) (connection : Connection) (createActs : List Action)
    (hconn : env.getConnectorResult = .ok connector)
    (hcreate : createConnection env connectionId connector info pm false =
      (.ok connection, createActs)) :
    (∃ r, (createAndAuthorizeOAuthConnection env connectionId connectorId info pm).1 = .ok r) ∧
    (∀ r, (createAndAuthorizeOAuthConnection env connectionId connectorId info pm).1 = .ok r →
       (r.errorMessage.isSome ↔ r.connection.isNone) ∧
       (r.errorMessage.isSome →
          Action.deleteConn connectionId ∈
            (createAndAuthorizeOAuthConnection env connectionId connectorId info pm).2)) ∧
    (∀ url lr p, env.consentUrlResult = .ok url → env.loginResult = .ok lr →
       lr.error = some p →
       (createAndAuthorizeOAuthConnection env connectionId connectorId info pm).1 =
         .ok { connection := none, errorMessage := some (tryParseErrorMessage (atobDecode p)) } ∧
       Action.deleteConn connectionId ∈
         (createAndAuthorizeOAuthConnection env connectionId connectorId info pm).2) ∧
    (∀ url lr code aclActs fetched,
       env.consentUrlResult = .ok url → env.loginResult = .ok lr →
       lr.error = none → lr.code = some code →
       env.confirmResult = .ok () →
       _createConnectionAclIfNeeded env connection none = (.ok (), aclActs) →
       env.getConnectionResult = .ok fetched →
       env.testConnectionResult = .ok () →
       createAndAuthorizeOAuthConnection env connectionId connectorId info pm =
         (.ok { connection := some fetched, errorMessage := none },
          [Action.getConnector connectorId] ++ createActs ++
            [Action.fetchConsentUrl connectionId] ++ [Action.openPopup url] ++
            [Action.confirmCode connectionId code] ++ aclActs ++
            [Action.getConn connection.id] ++ [Action.testConn fetched.id])) ∧
    (∀ e, env.consentUrlResult = .error e →
       (createAndAuthorizeOAuthConnection env connectionId connectorId info pm).1 =
         .ok { connection := none, errorMessage := some (tryParseErrorMessage e) } ∧
       Action.deleteConn connectionId ∈
         (createAndAuthorizeOAuthConnection env connectionId connectorId info pm).2) ∧
    (∀ url e, env.consentUrlResult = .ok url → env.loginResult = .error e →
       (createAndAuthorizeOAuthConnection env connectionId connectorId info pm).1 =
         .ok { connection := none, errorMessage := some (tryParseErrorMessage e) } ∧
       Action.deleteConn connectionId ∈
         (createAndAuthorizeOAuthConnection env connectionId connectorId info pm).2) ∧
    (∀ url lr code e, env.consentUrlResult = .ok url → env.loginResult = .ok lr →
       lr.error = none → lr.code = some code → env.confirmResult = .error e →
       (createAndAuthorizeOAuthConnection env connectionId connectorId info pm).1 =
         .ok { connection := none, errorMessage := some (tryParseErrorMessage e) } ∧
       Action.deleteConn connectionId ∈
         (createAndAuthorizeOAuthConnection env connectionId connectorId info pm).2) ∧
    (∀ url lr e aclActs, env.consentUrlResult = .ok url → env.loginResult = .ok lr →
       lr.error = none →
       (lr.code = none ∨ ∃ code, lr.code = some code ∧ env.confirmResult = .ok ()) →
       _createConnectionAclIfNeeded env connection none = (.error e, aclActs) →
       (createAndAuthorizeOAuthConnection env connectionId connectorId info pm).1 =
         .ok { connection := none, errorMessage := some (tryParseErrorMessage e) } ∧
       Action.deleteConn connectionId ∈
         (createAndAuthorizeOAuthConnection env connectionId connectorId info pm).2) ∧
    (∀ url lr aclActs e, env.consentUrlResult = .ok url → env.loginResult = .ok lr →
       lr.error = none →
       (lr.code = none ∨ ∃ code, lr.code = some code ∧ env.confirmResult = .ok ()) →
       _createConnectionAclIfNeeded env connection none = (.ok (), aclActs) →
       env.getConnectionResult = .error e →
       (createAndAuthorizeOAuthConnection env connectionId connectorId info pm).1 =
         .ok { connection := none, errorMessage := some (tryParseErrorMessage e) } ∧
       Action.deleteConn connectionId ∈
         (createAndAuthorizeOAuthConnection env connectionId connectorId info pm).2) ∧
    (∀ url lr aclActs fetched e, env.consentUrlResult = .ok url → env.loginResult = .ok lr →
       lr.error = none →
       (lr.code = none ∨ ∃ code, lr.code = some code ∧ env.confirmResult = .ok ()) →
       _createConnectionAclIfNeeded env connection none = (.ok (), aclActs) →
       env.getConnectionResult = .ok fetched →
       env.testConnectionResult = .error e →
       (createAndAuthorizeOAuthConnection env connectionId connectorId info pm).1 =
         .ok { connection := none, errorMessage := some (tryParseErrorMessage e) } ∧
       Action.deleteConn connectionId ∈
         (createAndAuthorizeOAuthConnection env connectionId connectorId info pm).2) := by
  have main : ∃ r,
      (createAndAuthorizeOAuthConnection env connectionId connectorId info pm).1 = .ok r ∧
      (r.errorMessage.isSome ↔ r.connection.isNone) ∧
      (r.errorMessage.isSome →
         Action.deleteConn connectionId ∈
           (createAndAuthorizeOAuthConnection env connectionId connectorId info pm).2) := by
    unfold createAndAuthorizeOAuthConnection
    simp only [hconn, hcreate]
    cases hcu : env.consentUrlResult with
    | error e =>
      exact ⟨_, rfl, by simp,
        fun _ => List.mem_append.mpr (Or.inr (List.mem_singleton.mpr rfl))⟩
    | ok consentUrl =>
      cases hl : env.loginResult with
      | error e =>
        exact ⟨_, rfl, by simp,
        fun _ => List.mem_append.mpr (Or.inr (List.mem_singleton.mpr rfl))⟩
      | ok loginResponse =>
        cases hle : loginResponse.error with
        | some p =>
          simp only [hle]
          exact ⟨_, rfl, by simp,
        fun _ => List.mem_append.mpr (Or.inr (List.mem_singleton.mpr rfl))⟩
        | none =>
          simp only [hle]
          rcases hacleq : _createConnectionAclIfNeeded env connection none with ⟨aclRes, aclActs⟩
          cases hcode : loginResponse.code with
          | some code =>
            simp only [hcode]
            cases hcf : env.confirmResult with
            | error e =>
              exact ⟨_, rfl, by simp,
        fun _ => List.mem_append.mpr (Or.inr (List.mem_singleton.mpr rfl))⟩
            | ok u =>
              simp only [hacleq]
              cases aclRes with
              | error e =>
                exact ⟨_, rfl, by simp,
                  fun _ => List.mem_append.mpr (Or.inr (List.mem_singleton.mpr rfl))⟩
              | ok u2 =>
                cases hgcn : env.getConnectionResult with
                | error e =>
                  exact ⟨_, rfl, by simp,
                    fun _ => List.mem_append.mpr (Or.inr (List.mem_singleton.mpr rfl))⟩
                | ok fetchedConnection =>
                  cases htc : env.testConnectionResult with
                  | error e =>
                    exact ⟨_, rfl, by simp,
                      fun _ => List.mem_append.mpr (Or.inr (List.mem_singleton.mpr rfl))⟩
                  | ok v => exact ⟨_, rfl, by simp, by simp⟩
          | none =>
            simp only [hcode, hacleq]
            cases aclRes with
            | error e =>
              exact ⟨_, rfl, by simp,
        fun _ => List.mem_append.mpr (Or.inr (List.mem_singleton.mpr rfl))⟩
            | ok u2 =>
              cases hgcn : env.getConnectionResult with
              | error e =>
                exact ⟨_, rfl, by simp,
                  fun _ => List.mem_append.mpr (Or.inr (List.mem_singleton.mpr rfl))⟩
              | ok fetchedConnection =>
                cases htc : env.testConnectionResult with
                | error e =>
                  exact ⟨_, rfl, by simp,
                    fun _ => List.mem_append.mpr (Or.inr (List.mem_singleton.mpr rfl))⟩
                | ok v => exact ⟨_, rfl, by simp, by simp⟩
  obtain ⟨r0, h0, hiff, hdel⟩ := main
  refine ⟨⟨r0, h0⟩, ?_, ?_, ?_, ?_, ?_, ?_, ?_, ?_, ?_⟩
  · intro r hr
    rw [h0] at hr
    injection hr with hr
    rw [← hr]
    exact ⟨hiff, hdel⟩
  · intro url lr p hcu hl hle
    unfold createAndAuthorizeOAuthConnection
    simp only [hconn, hcreate, hcu, hl, hle]
    exact ⟨rfl, List.mem_append.mpr (Or.inr (List.mem_singleton.mpr rfl))⟩
  · intro url lr code aclActs fetched hcu hl hle hcode hcf hacleq hgcn htc
    unfold createAndAuthorizeOAuthConnection
    simp only [hconn, hcreate, hcu, hl, hle, hcode, hcf, hacleq, hgcn, htc]
  · intro e hcu
    unfold createAndAuthorizeOAuthConnection
    simp only [hconn, hcreate, hcu]
    exact ⟨rfl, List.mem_append.mpr (Or.inr (List.mem_singleton.mpr rfl))⟩
  · intro url e hcu hl
    unfold createAndAuthorizeOAuthConnection
    simp only [hconn, hcreate, hcu, hl]
    exact ⟨rfl, List.mem_append.mpr (Or.inr (List.mem_singleton.mpr rfl))⟩
  · intro url lr code e hcu hl hle hcode hcf
    unfold createAndAuthorizeOAuthConnection
    simp only [hconn, hcreate, hcu, hl, hle, hcode, hcf]
    exact ⟨rfl, List.mem_append.mpr (Or.inr (List.mem_singleton.mpr rfl))⟩
  · intro url lr e aclActs hcu hl hle hconfirm hacleq
    unfold createAndAuthorizeOAuthConnection
    rcases hconfirm with hcode | ⟨code, hcode, hcf⟩
    · simp only [hconn, hcreate, hcu, hl, hle, hcode, hacleq]
      exact ⟨rfl, List.mem_append.mpr (Or.inr (List.mem_singleton.mpr rfl))⟩
    · simp only [hconn, hcreate, hcu, hl, hle, hcode, hcf, hacleq]
      exact ⟨rfl, List.mem_append.mpr (Or.inr (List.mem_singleton.mpr rfl))⟩
  · intro url lr aclActs e hcu hl hle hconfirm hacleq hgcn
    unfold createAndAuthorizeOAuthConnection
    rcases hconfirm with hcode | ⟨code, hcode, hcf⟩
    · simp only [hconn, hcreate, hcu, hl, hle, hcode, hacleq, hgcn]
      exact ⟨rfl, List.mem_append.mpr (Or.inr (List.mem_singleton.mpr rfl))⟩
    · simp only [hconn, hcreate, hcu, hl, hle, hcode, hcf, hacleq, hgcn]
      exact ⟨rfl, List.mem_append.mpr (Or.inr (List.mem_singleton.mpr rfl))⟩
  · intro url lr aclActs fetched e hcu hl hle hconfirm hacleq hgcn htc
    unfold createAndAuthorizeOAuthConnection
    rcases hconfirm with hcode | ⟨code, hcode, hcf⟩
    · simp only [hconn, hcreate, hcu, hl, hle, hcode, hacleq, hgcn, htc]
      exact ⟨rfl, List.mem_append.mpr (Or.inr (List.mem_singleton.mpr rfl))⟩
    · simp only [hconn, hcreate, hcu, hl, hle, hcode, hcf, hacleq, hgcn, htc]
      exact ⟨rfl, List.mem_append.mpr (Or.inr (List.mem_singleton.mpr rfl))⟩

/-- Witness for C8: the happy path of the sample environment, whose login
response carries the consent code `code1`, and the same environment with a
failing final connection test, which resolves with only an error message and
deletes the connection. -/
theorem oauth_flow_witness :
    (createAndAuthorizeOAuthConnection sampleEnv
        "/x/conn1" "/subscriptions/s/providers/Microsoft.Web/apis/sql" sampleInfo samplePM =
      (.ok { connection := some sampleConnection, errorMessage := none },
       [Action.getConnector "/subscriptions/s/providers/Microsoft.Web/apis/sql"] ++
         (createConnection sampleEnv "/x/conn1" sampleArmConnector sampleInfo samplePM false).2 ++
         [Action.fetchConsentUrl "/x/conn1"] ++ [Action.openPopup "https://consent.example"] ++
         [Action.confirmCode "/x/conn1" "code1"] ++
         [Action.getAcls sampleConnection.id,
          Action.putAccessPolicy sampleConnection.id "app-object1" "object1" "tenant1" "westus"] ++
         [Action.getConn sampleConnection.id] ++ [Action.testConn sampleConnection.id])) ∧
    ((createAndAuthorizeOAuthConnection
        { sampleEnv with testConnectionResult := .error "test failed" }
        "/x/conn1" "/subscriptions/s/providers/Microsoft.Web/apis/sql" sampleInfo samplePM).1 =
      .ok { connection := none, errorMessage := some (tryParseErrorMessage "test failed") } ∧
     Action.deleteConn "/x/conn1" ∈
       (createAndAuthorizeOAuthConnection
         { sampleEnv with testConnectionResult := .error "test failed" }
         "/x/conn1" "/subscriptions/s/providers/Microsoft.Web/apis/sql" sampleInfo samplePM).2) :=
  ⟨(oauth_flow sampleEnv "/x/conn1" "/subscriptions/s/providers/Microsoft.Web/apis/sql"
      sampleInfo samplePM sampleArmConnector sampleConnection
      (createConnection sampleEnv "/x/conn1" sampleArmConnector sampleInfo samplePM false).2
      rfl (by rfl)).2.2.2.1
    "https://consent.example" { code := some "code1", error := none } "code1"
    [Action.getAcls sampleConnection.id,
      Action.putAccessPolicy sampleConnection.id "app-object1" "object1" "tenant1" "westus"]
    sampleConnection rfl rfl rfl rfl rfl (by rfl) rfl rfl,
   (oauth_flow { sampleEnv with testConnectionResult := .error "test failed" }
      "/x/conn1" "/subscriptions/s/providers/Microsoft.Web/apis/sql"
      sampleInfo samplePM sampleArmConnector sampleConnection
      (createConnection { sampleEnv with testConnectionResult := .error "test failed" }
        "/x/conn1" sampleArmConnector sampleInfo samplePM false).2
      rfl (by rfl)).2.2.2.2.2.2.2.2.2
    "https://consent.example" { code := some "code1", error := none }
    [Action.getAcls sampleConnection.id,
      Action.putAccessPolicy sampleConnection.id "app-object1" "object1" "tenant1" "westus"]
    sampleConnection "test failed" rfl rfl rfl (Or.inr ⟨"code1", rfl, rfl⟩) (by rfl) rfl rfl⟩

/-! ## C9: secrets are moved into app settings -/

theorem spAppSettingName_inj (k a b : String)
    (h : spAppSettingName k a = spAppSettingName k b) : a = b := by
  have hd := congrArg String.data h
  simp only [spAppSettingName, String.data_append] at hd
  have hd2 := List.append_cancel_left hd
  have : escapeSpecialChars a = escapeSpecialChars b := by
    cases hea : escapeSpecialChars a with
    | mk da =>
      cases heb : escapeSpecialChars b with
      | mk db =>
        rw [hea, heb] at hd2
        simp only at hd2
        rw [hd2]
  exact escapeSpecialChars_injective a b this

theorem path_last_inj (p₁ p₂ : List String) (a b : String)
    (h : p₁ ++ [a] = p₂ ++ [b]) : a = b := by
  have := congrArg List.getLast? h
  rw [List.getLast?_concat, List.getLast?_concat] at this
  injection this

theorem setSetting_fresh (m : List (String × AnyVal)) (key : String) (v : AnyVal)
    (h : key ∉ m.map Prod.fst) : setSetting m key v = m ++ [(key, v)] := by
  unfold setSetting
  rw [if_neg]
  intro hany
  rw [List.any_eq_true] at hany
  rcases hany with ⟨p, hp, hpk⟩
  rw [beq_iff_eq] at hpk
  exact h (hpk ▸ List.mem_map.mpr ⟨p, hp, rfl⟩)

theorem safeSet_fresh (m : List (List String × AnyVal)) (key : List String) (v : AnyVal)
    (h : key ∉ m.map Prod.fst) : safeSetObjectPropertyValue m key v = m ++ [(key, v)] := by
  unfold safeSetObjectPropertyValue
  rw [if_neg]
  intro hany
  rw [List.any_eq_true] at hany
  rcases hany with ⟨p, hp, hpk⟩
  rw [beq_iff_eq] at hpk
  exact h (hpk ▸ List.mem_map.mpr ⟨p, hp, rfl⟩)

/-- The `for` loop of the service-provider conversion, characterised: under
fresh setting names and property paths, it appends one `@appsetting`
substitution (recording the raw value in settings) for exactly the
AppConfiguration-sourced parameters, the substituted values to the stored
connection, and the raw values to the raw connection. -/
theorem spFold_adds (connectionKey : String) (md : List (String × ConnectionParameter)) :
    ∀ (params : List (String × AnyVal))
      (acc : ConnectionAndAppSetting ServiceProviderConnectionModel × ServiceProviderConnectionModel),
      (params.map Prod.fst).Nodup →
      (∀ pv ∈ params, spAppSettingName connectionKey pv.1 ∉ acc.1.settings.map Prod.fst) →
      (∀ pv ∈ params,
        parameterPropertyPath (lookupParameter md pv.1) ++ [pv.1] ∉
          acc.1.connectionData.parameterValues.map Prod.fst) →
      (∀ pv ∈ params,
        parameterPropertyPath (lookupParameter md pv.1) ++ [pv.1] ∉
          acc.2.parameterValues.map Prod.fst) →
      params.foldl (spFoldStep connectionKey md) acc =
        ({ acc.1 with
            settings := acc.1.settings ++ params.filterMap (fun pv =>
              if (lookupParameter md pv.1).bind (fun p => p.parameterSource) =
                  some ConnectionParameterSource.AppConfiguration then
                some (spAppSettingName connectionKey pv.1, pv.2)
              else none)
            connectionData := { acc.1.connectionData with
              parameterValues := acc.1.connectionData.parameterValues ++ params.map (fun pv =>
                (parameterPropertyPath (lookupParameter md pv.1) ++ [pv.1],
                 if (lookupParameter md pv.1).bind (fun p => p.parameterSource) =
                     some ConnectionParameterSource.AppConfiguration then
                   AnyVal.str (appsettingRef (spAppSettingName connectionKey pv.1))
                 else pv.2)) } },
         { acc.2 with parameterValues := acc.2.parameterValues ++ params.map (fun pv =>
            (parameterPropertyPath (lookupParameter md pv.1) ++ [pv.1], pv.2)) }) := by
  intro params
  induction params with
  | nil =>
    intro acc _ _ _ _
    rcases acc with ⟨⟨ak, ⟨apv, asp, apsn, adn⟩, ast, apl⟩, ⟨rpv, rsp, rpsn, rdn⟩⟩
    simp
  | cons pv rest ih =>
    intro acc hnd hs hp hr
    have hndr : (rest.map Prod.fst).Nodup := (List.nodup_cons.mp hnd).2
    have hkey : pv.1 ∉ rest.map Prod.fst := (List.nodup_cons.mp hnd).1
    have hsname : spAppSettingName connectionKey pv.1 ∉ acc.1.settings.map Prod.fst :=
      hs pv (List.mem_cons_self pv rest)
    have hppath : parameterPropertyPath (lookupParameter md pv.1) ++ [pv.1] ∉
        acc.1.connectionData.parameterValues.map Prod.fst :=
      hp pv (List.mem_cons_self pv rest)
    have hrpath : parameterPropertyPath (lookupParameter md pv.1) ++ [pv.1] ∉
        acc.2.parameterValues.map Prod.fst :=
      hr pv (List.mem_cons_self pv rest)
    rw [List.foldl_cons]
    by_cases hcond : (lookupParameter md pv.1).bind (fun p => p.parameterSource) =
        some ConnectionParameterSource.AppConfiguration
    · have hstep : spFoldStep connectionKey md acc pv =
          ({ acc.1 with
              settings := acc.1.settings ++ [(spAppSettingName connectionKey pv.1, pv.2)]
              connectionData := { acc.1.connectionData with
                parameterValues := acc.1.connectionData.parameterValues ++
                  [(parameterPropertyPath (lookupParameter md pv.1) ++ [pv.1],
                    AnyVal.str (appsettingRef (spAppSettingName connectionKey pv.1)))] } },
           { acc.2 with parameterValues := acc.2.parameterValues ++
              [(parameterPropertyPath (lookupParameter md pv.1) ++ [pv.1], pv.2)] }) := by
        unfold spFoldStep
        simp only [hcond, if_pos, if_true]
        rw [setSetting_fresh _ _ _ hsname, safeSet_fresh _ _ _ hppath, safeSet_fresh _ _ _ hrpath]
      rw [hstep]
      rw [ih _ hndr ?hs2 ?hp2 ?hr2]
      case hs2 =>
        intro pv2 hpv2
        simp only [List.map_append, List.mem_append]
        rintro (h1 | h1)
        · exact hs pv2 (List.mem_cons_of_mem pv hpv2) h1
        · simp only [List.map_cons, List.map_nil, List.mem_singleton] at h1
          exact hkey (spAppSettingName_inj connectionKey pv2.1 pv.1 h1 ▸
            List.mem_map.mpr ⟨pv2, hpv2, rfl⟩)
      case hp2 =>
        intro pv2 hpv2
        simp only [List.map_append, List.mem_append]
        rintro (h1 | h1)
        · exact hp pv2 (List.mem_cons_of_mem pv hpv2) h1
        · simp only [List.map_cons, List.map_nil, List.mem_singleton] at h1
          exact hkey (path_last_inj _ _ _ _ h1 ▸ List.mem_map.mpr ⟨pv2, hpv2, rfl⟩)
      case hr2 =>
        intro pv2 hpv2
        simp only [List.map_append, List.mem_append]
        rintro (h1 | h1)
        · exact hr pv2 (List.mem_cons_of_mem pv hpv2) h1
        · simp only [List.map_cons, List.map_nil, List.mem_singleton] at h1
          exact hkey (path_last_inj _ _ _ _ h1 ▸ List.mem_map.mpr ⟨pv2, hpv2, rfl⟩)
      rcases acc with ⟨⟨ak, ⟨apv, asp, apsn, adn⟩, ast, apl⟩, ⟨rpv, rsp, rpsn, rdn⟩⟩
      simp [List.filterMap_cons, hcond, List.append_assoc]
    · have hstep : spFoldStep connectionKey md acc pv =
          ({ acc.1 with
              settings := acc.1.settings
              connectionData := { acc.1.connectionData with
                parameterValues := acc.1.connectionData.parameterValues ++
                  [(parameterPropertyPath (lookupParameter md pv.1) ++ [pv.1], pv.2)] } },
           { acc.2 with parameterValues := acc.2.parameterValues ++
              [(parameterPropertyPath (lookupParameter md pv.1) ++ [pv.1], pv.2)] }) := by
        unfold spFoldStep
        simp only [hcond, if_false]
        rw [safeSet_fresh _ _ _ hppath, safeSet_fresh _ _ _ hrpath]
      rw [hstep]
      rw [ih _ hndr ?hs2 ?hp2 ?hr2]
      case hs2 =>
        intro pv2 hpv2
        exact fun h1 => hs pv2 (List.mem_cons_of_mem pv hpv2) h1
      case hp2 =>
        intro pv2 hpv2
        simp only [List.map_append, List.mem_append]
        rintro (h1 | h1)
        · exact hp pv2 (List.mem_cons_of_mem pv hpv2) h1
        · simp only [List.map_cons, List.map_nil, List.mem_singleton] at h1
          exact hkey (path_last_inj _ _ _ _ h1 ▸ List.mem_map.mpr ⟨pv2, hpv2, rfl⟩)
      case hr2 =>
        intro pv2 hpv2
        simp only [List.map_append, List.mem_append]
        rintro (h1 | h1)
        · exact hr pv2 (List.mem_cons_of_mem pv hpv2) h1
        · simp only [List.map_cons, List.map_nil, List.mem_singleton] at h1
          exact hkey (path_last_inj _ _ _ _ h1 ▸ List.mem_map.mpr ⟨pv2, hpv2, rfl⟩)
      rcases acc with ⟨⟨ak, ⟨apv, asp, apsn, adn⟩, ast, apl⟩, ⟨rpv, rsp, rpsn, rdn⟩⟩
      simp [List.filterMap_cons, hcond, List.append_assoc]

/-- C9. Secrets move out of stored payloads into app settings: a function
connection stores the original authentication value under
`escapeSpecialChars(key) + _functionAppKey` and replaces
`authentication.value` by the `@appsetting` reference; an API-management
connection likewise stores the subscription key under
`escapeSpecialChars(key) + _SubscriptionKey` and references it via
`@appsetting`; a service-provider connection applies the substitution to
exactly the parameters whose `parameterSource` is `AppConfiguration`, under
the setting name `escapeSpecialChars(key) + _ + escapeSpecialChars(parameterKey)`. -/
theorem secrets_to_app_settings (connectionKey : String) :
    (∀ info a r, jsGet (info.connectionParameters.getD []) "authentication" = AnyVal.auth a →
       convertToFunctionsConnectionsData connectionKey info = some r →
       r.settings = [(escapeSpecialChars connectionKey ++ "_functionAppKey", AnyVal.str a.value)] ∧
       r.connectionData.authentication.value =
         appsettingRef (escapeSpecialChars connectionKey ++ "_functionAppKey")) ∧
    (∀ info : ConnectionCreationInfo,
       (convertToApimConnectionsData connectionKey info).settings =
         [(escapeSpecialChars connectionKey ++ "_SubscriptionKey",
           jsGet (info.connectionParameters.getD []) "subscriptionKey")] ∧
       (convertToApimConnectionsData connectionKey info).connectionData.subscriptionKey =
         appsettingRef (escapeSpecialChars connectionKey ++ "_SubscriptionKey")) ∧
    (∀ (connectorId : String) (info : ConnectionCreationInfo)
       (pm : ConnectionParametersMetadata),
       info.appSettings = none →
       ((spParameterValues info).map Prod.fst).Nodup →
       (convertToServiceProviderConnectionsData connectionKey connectorId info pm).1.settings =
         (spParameterValues info).filterMap (fun pv =>
           if (lookupParameter (spMetadataParameters info pm) pv.1).bind
               (fun p => p.parameterSource) = some ConnectionParameterSource.AppConfiguration then
             some (spAppSettingName connectionKey pv.1, pv.2)
           else none) ∧
       (convertToServiceProviderConnectionsData connectionKey connectorId info pm).1.connectionData.parameterValues =
         (spParameterValues info).map (fun pv =>
           (parameterPropertyPath (lookupParameter (spMetadataParameters info pm) pv.1) ++ [pv.1],
            if (lookupParameter (spMetadataParameters info pm) pv.1).bind
                (fun p => p.parameterSource) = some ConnectionParameterSource.AppConfiguration then
              AnyVal.str (appsettingRef (spAppSettingName connectionKey pv.1))
            else pv.2)) ∧
       (convertToServiceProviderConnectionsData connectionKey connectorId info pm).2.parameterValues =
         (spParameterValues info).map (fun pv =>
           (parameterPropertyPath (lookupParameter (spMetadataParameters info pm) pv.1) ++ [pv.1],
            pv.2))) := by
  refine ⟨?_, ?_, ?_⟩
  · intro info a r hauth hconv
    simp only [convertToFunctionsConnectionsData, hauth] at hconv
    simp only [Option.some.injEq] at hconv
    rw [← hconv]
    exact ⟨rfl, rfl⟩
  · intro info
    exact ⟨rfl, rfl⟩
  · intro connectorId info pm hset hnd
    have hfold := spFold_adds connectionKey (spMetadataParameters info pm)
      (spParameterValues info)
      ({ connectionKey := connectionKey
         connectionData :=
           { parameterValues := []
             parameterSetName := info.connectionParametersSet.map (fun s => s.name)
             serviceProvider := { id := connectorId }
             displayName := info.displayName }
         settings := info.appSettings.getD []
         pathLocation := [serviceProviderLocation] },
       { parameterValues := []
         parameterSetName := info.connectionParametersSet.map (fun s => s.name)
         serviceProvider := { id := connectorId }
         displayName := info.displayName })
      hnd (by rw [hset]; intro pv _ h; simp at h) (by intro pv _ h; simp at h)
      (by intro pv _ h; simp at h)
    have hres : convertToServiceProviderConnectionsData connectionKey connectorId info pm =
        (spParameterValues info).foldl
          (spFoldStep connectionKey (spMetadataParameters info pm))
          ({ connectionKey := connectionKey
             connectionData :=
               { parameterValues := []
                 parameterSetName := info.connectionParametersSet.map (fun s => s.name)
                 serviceProvider := { id := connectorId }
                 displayName := info.displayName }
             settings := info.appSettings.getD []
             pathLocation := [serviceProviderLocation] },
           { parameterValues := []
             parameterSetName := info.connectionParametersSet.map (fun s => s.name)
             serviceProvider := { id := connectorId }
             displayName := info.displayName }) := rfl
    rw [hres, hfold, hset]
    simp

/-- Witness for C9 at a concrete service-provider creation: one
AppConfiguration-sourced parameter `token` lands in the settings under its
escaped name, and one functions connection with a concrete key. -/
theorem secrets_to_app_settings_witness :
    (convertToServiceProviderConnectionsData "conn-key" "/serviceProviders/sql"
        { displayName := some "d"
          connectionParameters := some [("token", AnyVal.str "secretv")]
          connectionParametersSet := none
          appSettings := none }
        { connectionParameters := some
            [("token", { parameterSource := some ConnectionParameterSource.AppConfiguration
                         uiDefinition := none })]
          connectionParameterSet := none
          connectionMetadata := none }).1.settings =
      [(spAppSettingName "conn-key" "token", AnyVal.str "secretv")] := by
  have h := ((secrets_to_app_settings "conn-key").2.2 "/serviceProviders/sql"
    { displayName := some "d"
      connectionParameters := some [("token", AnyVal.str "secretv")]
      connectionParametersSet := none
      appSettings := none }
    { connectionParameters := some
        [("token", { parameterSource := some ConnectionParameterSource.AppConfiguration
                     uiDefinition := none })]
      connectionParameterSet := none
      connectionMetadata := none } rfl (by decide)).1
  rw [h]
  rfl

end LogicAppsUX
